import Mathlib

/-!
Verification of the DTG Shield risk-engine and gateway middleware
(src/dtg-shield-service/risk_engine.py, src/dtg-shield-service/main.py,
src/dtg-shield-service/config.py) against their specification.

The Python service is embedded shallowly: Redis is a keyspace with
absolute-time expiries, the event-loop effects become a state-passing
monad with exceptions (mutations made before an exception persist, as
they do across Python `await` points), and json.loads / .get / .upper /
int() carry their Python raising behaviour.
-/

set_option maxHeartbeats 1600000

namespace DTGShield

/-! Structurally recursive models of the Python string operations the service
uses (str.upper, int(), str.startswith, str.split(",")[0], str.strip), so that
every definition evaluates by kernel reduction. -/

/-- Python str.upper() (ASCII case mapping, as .upper() on country codes). -/
def upperStr (s : String) : String := ⟨s.data.map Char.toUpper⟩

/-- Decimal-digit accumulation for int() / Redis integer parsing. -/
def digitsAux : Nat → List Char → Option Nat
  | acc, [] => some acc
  | acc, c :: cs => if c.isDigit then digitsAux (10 * acc + (c.toNat - 48)) cs else none

/-- Python int(s) / the integer Redis INCRBY parses from a stored string:
an optional sign followed by decimal digits. -/
def pyToInt? (s : String) : Option Int :=
  match s.data with
  | [] => none
  | '-' :: cs =>
      match cs with
      | [] => none
      | _ => (digitsAux 0 cs).map (fun n => -(n : Int))
  | '+' :: cs =>
      match cs with
      | [] => none
      | _ => (digitsAux 0 cs).map (fun n => (n : Int))
  | cs => (digitsAux 0 cs).map (fun n => (n : Int))

/-- Python str.startswith. -/
def pyStartswith (s pre : String) : Bool := pre.data.isPrefixOf s.data

/-- Python s.split(",")[0]: everything before the first comma. -/
def pyFirstCommaField (s : String) : String := ⟨s.data.takeWhile (fun c => c != ',')⟩

/-- Python str.strip(): drop leading and trailing whitespace. -/
def pyStrip (s : String) : String :=
  ⟨((s.data.dropWhile Char.isWhitespace).reverse.dropWhile Char.isWhitespace).reverse⟩

/-- JSON values, as produced by json.loads in the Python source (the service
only ever handles integral numbers). -/
inductive JVal where
  | jnull : JVal
  | jbool : Bool → JVal
  | jnum : Int → JVal
  | jstr : String → JVal
  | jarr : List JVal → JVal
  | jobj : List (String × JVal) → JVal

/-- Python truthiness of a JSON value (`if x:` / `bool(x)` / `x or y` in the
source). -/
def pyTruthy : JVal → Bool
  | .jnull => false
  | .jbool b => b
  | .jnum n => n != 0
  | .jstr s => s != ""
  | .jarr xs => !xs.isEmpty
  | .jobj kvs => !kvs.isEmpty

/-- Python str() of a JSON scalar, as interpolated into f-strings by the
source. The source only interpolates scalars; container rendering is left
abstract. -/
def pyStr : JVal → String
  | .jnull => "None"
  | .jbool true => "True"
  | .jbool false => "False"
  | .jnum n => toString n
  | .jstr s => s
  | .jarr _ => "[\x85]"
  | .jobj _ => "\x7b\x85\x7d"

/-- dict.get(k) on a parsed JSON value; raises AttributeError on a non-object,
as Python does. -/
def jget : JVal → String → Except String (Option JVal)
  | .jobj kvs, k => .ok ((kvs.find? (fun p => p.1 == k)).map (fun p => p.2))
  | _, _ => .error "AttributeError"

/-- dict.get(k, d) with a default. -/
def jgetD (j : JVal) (k : String) (d : JVal) : Except String JVal :=
  (jget j k).map (fun o => o.getD d)

/-- Python == between a dict.get result and a string literal: true only when
the value is that exact string (None == "true" is False, True == "true" is
False, and so on). -/
def pyEqStr : Option JVal → String → Bool
  | some (.jstr s), t => s == t
  | _, _ => false

/-- Python .upper(); raises AttributeError on non-strings. -/
def pyUpper : JVal → Except String String
  | .jstr s => .ok (upperStr s)
  | _ => .error "AttributeError"

/-- Python iteration over a JSON value (`for c in blocked_countries`): lists
yield elements, dicts yield their keys, strings yield 1-character strings;
other values raise TypeError. -/
def pyIter : JVal → Except String (List JVal)
  | .jarr xs => .ok xs
  | .jobj kvs => .ok (kvs.map (fun p => JVal.jstr p.1))
  | .jstr s => .ok (s.data.map (fun c => JVal.jstr (String.singleton c)))
  | _ => .error "TypeError"

/-- Python int() on a JSON value: numbers pass through, numeric strings parse,
booleans coerce; anything else raises. -/
def pyInt : JVal → Except String Int
  | .jnum n => .ok n
  | .jbool b => .ok (if b then 1 else 0)
  | .jstr s =>
      match pyToInt? s with
      | some n => .ok n
      | none => .error "ValueError"
  | _ => .error "TypeError"

/-- A value stored under a Redis string key. Stored JSON documents are kept in
parsed form (vjson); raw non-JSON strings such as block reasons are vplain;
integer-valued keys maintained by INCR/INCRBY are vint. -/
inductive RVal where
  | vplain : String → RVal
  | vjson : JVal → RVal
  | vint : Int → RVal

/-- json.loads on a stored value: stored documents parse back to themselves,
integer strings parse as JSON numbers, raw reason strings raise. -/
def jsonLoads : RVal → Except String JVal
  | .vjson j => .ok j
  | .vint n => .ok (.jnum n)
  | .vplain _ => .error "JSONDecodeError"

/-- The raw text redis GET hands to Python for a stored value (used by the
source only for block reasons, which are always vplain). -/
def rvalText : RVal → String
  | .vplain s => s
  | .vint n => toString n
  | .vjson j => pyStr j

/-- Python truthiness of a GET result string: vplain is empty-checked; decimal
integer renderings and serialized JSON documents are never empty. -/
def rvalTruthy : RVal → Bool
  | .vplain s => s != ""
  | .vint _ => true
  | .vjson _ => true

/-- The integer Redis parses out of a stored string value (INCRBY semantics). -/
def rvalInt? : RVal → Option Int
  | .vint n => some n
  | .vplain t => pyToInt? t
  | .vjson (.jnum n) => some n
  | .vjson _ => none

/-- Pointwise update of a keyed map. -/
def fupd {β : Type} (f : String → β) (k : String) (v : β) : String → β :=
  fun k2 => if k2 = k then v else f k2

@[simp] theorem fupd_same {β : Type} (f : String → β) (k : String) (v : β) :
    fupd f k v k = v := by simp [fupd]

theorem fupd_other {β : Type} (f : String → β) (k k2 : String) (v : β)
    (h : k2 ≠ k) : fupd f k v k2 = f k2 := by simp [fupd, h]

/-- Global state of the embedding: the Redis keyspace (string keys with
absolute-time expiries, list keys, sorted-set cardinalities), the abstract
clock, failure injection for store operations (operation name, key), the
external ip-api.com oracles, and counters of performed external calls. -/
structure St where
  now : Nat
  strs : String → Option (RVal × Option Nat)
  lists : String → List RVal
  zcards : String → Nat
  fails : String → String → Bool
  geoApi : String → Except String JVal
  vpnApi : String → Except String JVal
  geoCalls : Nat
  vpnCalls : Nat

/-- Python-style effect monad: state passing with exceptions. State mutations
made before an exception persist, as in the source, where redis writes are not
rolled back when a later await raises. -/
def M (α : Type) : Type := St → Except String α × St

instance : Monad M where
  pure a := fun s => (.ok a, s)
  bind m f := fun s =>
    match m s with
    | (.ok a, s1) => f a s1
    | (.error e, s1) => (.error e, s1)

@[simp] theorem pure_apply {α : Type} (a : α) (s : St) :
    (pure a : M α) s = (.ok a, s) := rfl

@[simp] theorem bind_apply {α β : Type} (m : M α) (f : α → M β) (s : St) :
    (m >>= f) s =
      match m s with
      | (.ok a, s1) => f a s1
      | (.error e, s1) => (.error e, s1) := rfl

/-- try/except: run the body; on an exception run the handler on the state at
the point of failure (earlier writes persist). -/
def mtry {α : Type} (m : M α) (h : String → M α) : M α := fun s =>
  match m s with
  | (.error e, s1) => h e s1
  | ok => ok

/-- Evaluate a pure Python expression that may raise (json.loads, .get on a
non-dict, int(), .upper()). -/
def liftE {α : Type} (e : Except String α) : M α := fun s => (e, s)

/-- Whether the expiry stamp of a key is still live at the given clock. -/
def alive (now : Nat) : Option Nat → Bool
  | none => true
  | some t => now < t

/-- redis GET (expired keys read as absent). -/
def rget (k : String) : M (Option RVal) := fun s =>
  if s.fails "get" k then (.error "ConnectionError", s)
  else
    match s.strs k with
    | some (v, exp) => if alive s.now exp then (.ok (some v), s) else (.ok none, s)
    | none => (.ok none, s)

/-- redis SETEX: set a string key with a TTL in seconds. -/
def rsetex (k : String) (ttl : Nat) (v : RVal) : M Unit := fun s =>
  if s.fails "setex" k then (.error "ConnectionError", s)
  else (.ok (), { s with strs := fupd s.strs k (some (v, some (s.now + ttl))) })

/-- redis EXISTS (counts only live keys). -/
def rexists (k : String) : M Bool := fun s =>
  if s.fails "exists" k then (.error "ConnectionError", s)
  else
    match s.strs k with
    | some (_, exp) => (.ok (alive s.now exp), s)
    | none => (.ok false, s)

/-- redis INCRBY: parses the current live value as an integer (0 when the key
is absent or expired), adds, stores the new total. A fresh key is created
without TTL; an existing key keeps its TTL. Raises on a non-integer value. -/
def rincrby (k : String) (amount : Int) : M Int := fun s =>
  if s.fails "incrby" k then (.error "ConnectionError", s)
  else
    match s.strs k with
    | some (v, exp) =>
        if alive s.now exp then
          match rvalInt? v with
          | some n =>
              (.ok (n + amount),
               { s with strs := fupd s.strs k (some (.vint (n + amount), exp)) })
          | none => (.error "WRONGTYPE", s)
        else
          (.ok amount, { s with strs := fupd s.strs k (some (.vint amount, none)) })
    | none => (.ok amount, { s with strs := fupd s.strs k (some (.vint amount, none)) })

/-- redis EXPIRE: refresh the TTL of an existing live key; no-op otherwise. -/
def rexpire (k : String) (ttl : Nat) : M Unit := fun s =>
  if s.fails "expire" k then (.error "ConnectionError", s)
  else
    match s.strs k with
    | some (v, exp) =>
        if alive s.now exp then
          (.ok (), { s with strs := fupd s.strs k (some (v, some (s.now + ttl))) })
        else (.ok (), s)
    | none => (.ok (), s)

/-- redis LPUSH: prepend to the list at a key. -/
def rlpush (k : String) (v : RVal) : M Unit := fun s =>
  if s.fails "lpush" k then (.error "ConnectionError", s)
  else (.ok (), { s with lists := fupd s.lists k (v :: s.lists k) })

/-- redis LTRIM key 0 stop: keep the first stop+1 elements. -/
def rltrim (k : String) (stop : Nat) : M Unit := fun s =>
  if s.fails "ltrim" k then (.error "ConnectionError", s)
  else (.ok (), { s with lists := fupd s.lists k ((s.lists k).take (stop + 1)) })

/-- redis ZCARD of an externally maintained sorted set. -/
def rzcard (k : String) : M Nat := fun s =>
  if s.fails "zcard" k then (.error "ConnectionError", s)
  else (.ok (s.zcards k), s)

/-- Advance the abstract clock (time passing between requests). -/
def tick (d : Nat) : M Unit := fun s => (.ok (), { s with now := s.now + d })

/-- datetime.utcnow().isoformat(), rendered from the abstract clock. -/
def nowIso : M String := fun s => (.ok (toString s.now), s)

/-- Perform the external country lookup (httpx GET plus r.json()); the call
counter increments whether or not the request succeeds. -/
def callGeoApi (ip : String) : M JVal := fun s =>
  match s.geoApi ip with
  | .ok j => (.ok j, { s with geoCalls := s.geoCalls + 1 })
  | .error e => (.error e, { s with geoCalls := s.geoCalls + 1 })

/-- Perform the external VPN/proxy lookup (httpx GET plus r.json()). -/
def callVpnApi (ip : String) : M JVal := fun s =>
  match s.vpnApi ip with
  | .ok j => (.ok j, { s with vpnCalls := s.vpnCalls + 1 })
  | .error e => (.error e, { s with vpnCalls := s.vpnCalls + 1 })

/-! ## config.py values used by the engine (src/dtg-shield-service/config.py) -/

def BLOCK_THRESHOLD : Int := 100
def AUTH_FAIL_WEIGHT : Int := 10

namespace RiskEngine

/-- RiskEngine.block_ip (risk_engine.py 45-53): existence-check, then SETEX
the reason under the block key, then bump the global counter only when the
identity was not already blocked. -/
def block_ip (ip : String) (reason : String) (duration_sec : Nat) : M Unit := do
  let block_key := "shield:block:" ++ ip
  let already_blocked ← rexists block_key
  rsetex block_key duration_sec (.vplain reason)
  if !already_blocked then
    let _ ← rincrby "shield:block_count" 1
    pure ()
  else
    pure ()

/-- RiskEngine.increment_risk (risk_engine.py 23-43). INCRBY then EXPIRE 3600,
append a log entry, trim the log to 50, and auto-block at the threshold. The
Python function has no return statement, so its value is None (embedded as
none : Option Int — the new total is only computed locally). -/
def increment_risk (ip : String) (amount : Int) (reason : String) : M (Option Int) := do
  let key := "shield:risk:" ++ ip
  let current ← rincrby key amount
  rexpire key 3600
  let log_key := "shield:logs:" ++ ip
  let ts ← nowIso
  let log_entry : JVal := .jobj
    [("timestamp", .jstr ts), ("amount", .jnum amount),
     ("reason", .jstr reason), ("total_score", .jnum current)]
  rlpush log_key (.vjson log_entry)
  rltrim log_key 49
  if current ≥ BLOCK_THRESHOLD then
    block_ip ip ("Risk score exceeded: " ++ toString current) 3600
  pure none

/-- RiskEngine._get_country_code (risk_engine.py 149-167): cache read outside
any try (a malformed cached payload raises to the caller); the external call,
the success-path cache write and return live inside a try whose failure falls
through to `return None`. The returned value is whatever JSON value sat under
"country_code" / "countryCode" (declared str | None). -/
def _get_country_code (ip : String) : M (Option JVal) := do
  let cache_key := "geo:ip:" ++ ip
  let cached_raw ← rget cache_key
  match cached_raw with
  | some raw => do
      let j ← liftE (jsonLoads raw)
      let cc ← liftE (jget j "country_code")
      pure cc
  | none => do
      let attempt ← mtry
        (do
          let data ← callGeoApi ip
          if pyEqStr (← liftE (jget data "status")) "success" then
            let country_code ← liftE (jget data "countryCode")
            let geo_payload : JVal := .jobj
              [("country_code", country_code.getD .jnull), ("ip", .jstr ip)]
            rsetex cache_key 3600 (.vjson geo_payload)
            pure (some country_code)
          else
            pure none)
        (fun _ => pure none)
      match attempt with
      | some cc => pure cc
      | none => pure none

/-- RiskEngine._check_vpn_cached (risk_engine.py 169-198): cache read outside
any try (a malformed cached payload raises to the caller); on a miss the
external call, parse, cache write and return live inside a try; any failure or
a non-success status falls through to `return False, ""`. Cached payload
fields are returned as the JSON values they are (declared tuple of bool and
str). -/
def _check_vpn_cached (ip : String) : M (JVal × JVal) := do
  let cache_key := "shield:vpn:" ++ ip
  let cached_raw ← rget cache_key
  match cached_raw with
  | some raw => do
      let cached ← liftE (jsonLoads raw)
      let v ← liftE (jgetD cached "is_vpn" (.jbool false))
      let r ← liftE (jgetD cached "reason" (.jstr ""))
      pure (v, r)
  | none => do
      let attempt ← mtry
        (do
          let data ← callVpnApi ip
          if pyEqStr (← liftE (jget data "status")) "success" then
            let p := (← liftE (jget data "proxy")).getD .jnull
            let h := (← liftE (jget data "hosting")).getD .jnull
            let is_vpn := pyTruthy p || pyTruthy h
            let reason := "proxy=" ++ pyStr p ++ ", hosting=" ++ pyStr h
            let payload : JVal := .jobj
              [("is_vpn", .jbool is_vpn), ("reason", .jstr reason)]
            rsetex cache_key 3600 (.vjson payload)
            pure (some (JVal.jbool is_vpn, JVal.jstr reason))
          else
            pure none)
        (fun _ => pure none)
      match attempt with
      | some res => pure res
      | none => pure (.jbool false, .jstr "")

/-- The layer-2 country comparison of is_ip_blocked (risk_engine.py line 83):
`country_code and country_code.upper() in [c.upper() for c in blocked_countries]`.
Short-circuits on a falsy country code; then the left operand is uppercased and
the comprehension iterates the parsed blocklist, uppercasing each element
(.upper() on a non-string raises, to the layer-2 except). -/
def geoDecision (country_code : JVal) (blocked_countries : JVal) : Except String Bool :=
  if pyTruthy country_code then do
    let u ← pyUpper country_code
    let elems ← pyIter blocked_countries
    let ups ← elems.mapM pyUpper
    pure (ups.contains u)
  else
    pure false

/-- Layer 2 of is_ip_blocked (risk_engine.py 72-87): geo-blocking, wrapped in
a try whose except logs and falls through (deny = none). -/
def layer2_geo (ip : String) : M (Option (Bool × String)) :=
  mtry
    (do
      let geo_settings_raw ← rget "geo:settings"
      match geo_settings_raw with
      | none => pure none
      | some graw => do
          let geo_settings ← liftE (jsonLoads graw)
          if pyEqStr (← liftE (jget geo_settings "geo_blocking_enabled")) "true" then
            let blocked_countries_raw ← rget "geo:blocked_countries"
            match blocked_countries_raw with
            | none => pure none
            | some braw => do
                let blocked_countries ← liftE (jsonLoads braw)
                if pyTruthy blocked_countries then
                  let cc ← _get_country_code ip
                  let country_code := cc.getD .jnull
                  let hit ← liftE (geoDecision country_code blocked_countries)
                  if hit then
                    pure (some (true, "Geo-Blocked: " ++ pyStr country_code ++ " is restricted"))
                  else
                    pure none
                else
                  pure none
          else
            pure none)
    (fun _ => pure none)

/-- The request object as the engine and middleware see it. -/
structure Req where
  path : String
  headers : String → Option String
  clientHost : String

/-- Layer 3 of is_ip_blocked (risk_engine.py 89-127): the three security-policy
sub-checks, wrapped in one try whose except logs and falls through. -/
def layer3_security (ip : String) (request : Option Req) : M (Option (Bool × String)) :=
  mtry
    (do
      let sec_settings_raw ← rget "security:settings"
      match sec_settings_raw with
      | none => pure none
      | some sraw => do
          let sec_settings ← liftE (jsonLoads sraw)
          -- 3a. Device Attestation check
          let attDeny ←
            (if pyEqStr (← liftE (jget sec_settings "require_device_attestation")) "true" then
              match request with
              | some req =>
                  let attestation_token := (req.headers "x-attestation-token").getD ""
                  if attestation_token == "" then do
                    let _ ← increment_risk ip 20
                      "Missing device attestation token (Root/Jailbreak suspected)"
                    let reason ← rget ("shield:block:" ++ ip)
                    match reason with
                    | some r =>
                        if rvalTruthy r then
                          pure (some (true, "Shield Risk Block: " ++ rvalText r))
                        else
                          pure none
                    | none => pure none
                  else
                    pure none
              | none => pure (none : Option (Bool × String))
            else
              pure none)
          match attDeny with
          | some d => pure (some d)
          | none => do
              -- 3b. VPN / Proxy blocking
              let vpnDeny ←
                (if pyEqStr (← liftE (jget sec_settings "block_vpn_and_proxy")) "true" then do
                  let res ← _check_vpn_cached ip
                  if pyTruthy res.1 then
                    pure (some (true, "Security Policy: VPN/Proxy/Datacenter traffic blocked"))
                  else
                    pure none
                else
                  pure (none : Option (Bool × String)))
              match vpnDeny with
              | some d => pure (some d)
              | none => do
                  -- 3c. Biometric IP throttle synchronization
                  let max_bio ← liftE
                    ((jgetD sec_settings "max_biometric_attempts_per_ip" (.jnum 10)).bind pyInt)
                  let bio_count ← rzcard ("rl:biometric:ip:" ++ ip)
                  if bio_count ≠ 0 ∧ (bio_count : Int) ≥ max_bio then do
                    let _ ← increment_risk ip (bio_count : Int)
                      ("Biometric IP limit exceeded (" ++ toString bio_count ++ "/" ++
                        toString max_bio ++ ")")
                    pure (some (true, "Security Policy: Biometric limit exceeded at edge (" ++
                      toString bio_count ++ "/" ++ toString max_bio ++ ")"))
                  else
                    pure none)
    (fun _ => pure none)

/-- Layer 4 of is_ip_blocked (risk_engine.py 129-141): the loop over the two
backend rate-limit counter keys; not wrapped in any try. -/
def layer4_loop (ip : String) : List String → M (Option (Bool × String))
  | [] => pure none
  | key :: rest => do
      let count ← rzcard key
      if count ≠ 0 ∧ 50 ≤ count then do
        let _ ← increment_risk ip (count : Int)
          "Excessive backend rate limit failures detected at Edge"
        pure (some (true, "Edge proxy detected heavy backend failure rate"))
      else
        layer4_loop ip rest

/-- Layers 2-4 of is_ip_blocked in sequence, each falling through to the next
when it does not deny, ending in `return False, ""`. -/
def is_ip_blocked_rest (ip : String) (request : Option Req) : M (Bool × String) := do
  let d2 ← layer2_geo ip
  match d2 with
  | some d => pure d
  | none => do
      let d3 ← layer3_security ip request
      match d3 with
      | some d => pure d
      | none => do
          let d4 ← layer4_loop ip ["rl:login:ip:" ++ ip, "rl:enrollment:ip:" ++ ip]
          match d4 with
          | some d => pure d
          | none => pure (false, "")

/-- RiskEngine.is_ip_blocked (risk_engine.py 64-143). Layer 1 (the direct
block GET) and layer 4 are outside any try; layers 2 and 3 each have their own
try/except that falls through to the next layer. -/
def is_ip_blocked (ip : String) (request : Option Req) : M (Bool × String) := do
  -- LAYER 1: Shield Direct Block
  let reason ← rget ("shield:block:" ++ ip)
  match reason with
  | some r =>
      if rvalTruthy r then
        pure (true, "Shield Risk Block: " ++ rvalText r)
      else
        is_ip_blocked_rest ip request
  | none => is_ip_blocked_rest ip request

/-- RiskEngine.get_block_count (risk_engine.py 204-207):
`int(count) if count else 0`. -/
def get_block_count : M Int := do
  let count ← rget "shield:block_count"
  match count with
  | some v =>
      if rvalTruthy v then
        liftE (pyInt (.jstr (rvalText v)))
      else
        pure 0
  | none => pure 0

end RiskEngine

/-! ## Gateway middleware (src/dtg-shield-service/main.py) -/

/-- Response as the middleware manipulates it: status code, header map
(later writes shadow earlier entries), and the body. -/
structure Resp where
  status : Nat
  headers : List (String × String)
  body : JVal

/-- response.headers[k] = v; header maps are read by first match, so the new
entry shadows any previous value for k. -/
def setHeader (r : Resp) (k v : String) : Resp :=
  { r with headers := (k, v) :: r.headers }

/-- Read back a response header. -/
def getHeader (r : Resp) (k : String) : Option String :=
  (r.headers.find? (fun p => p.1 == k)).map (fun p => p.2)

/-- Client-IP extraction (main.py 42-46): the trusted edge header first, then
the first comma-field of x-forwarded-for trimmed, then the socket peer
address; Python `or` takes the first nonempty string. -/
def client_ip_of (req : RiskEngine.Req) : String :=
  let cf := (req.headers "cf-connecting-ip").getD ""
  if cf != "" then cf
  else
    let xff := pyStrip (pyFirstCommaField ((req.headers "x-forwarded-for").getD ""))
    if xff != "" then xff
    else req.clientHost

def ADMIN_PATHS : List String := ["/api/v1/admin/"]

/-- Middleware result: the response handed back to the client, plus a trace of
whether the risk-engine block check was invoked on this request (the admin
branch returns before the is_ip_blocked call in the source). -/
structure MwOut where
  resp : Resp
  checkedPolicy : Bool

/-- shield_middleware (main.py 37-85). call_next (the downstream proxy and
backend) is an oracle of the request; the observed latency is abstract. An
exception from is_ip_blocked or increment_risk propagates out, as in the
source. -/
def shield_middleware (callNext : RiskEngine.Req → Resp) (latencyMs : Nat)
    (request : RiskEngine.Req) : M MwOut := do
  let client_ip := client_ip_of request
  let is_admin_path := ADMIN_PATHS.any (fun p => pyStartswith request.path p)
  if is_admin_path then
    let response := callNext request
    pure { resp := setHeader response "X-Shield-Bypass" "admin", checkedPolicy := false }
  else do
    let bl ← RiskEngine.is_ip_blocked client_ip (some request)
    if bl.1 then
      pure
        { resp :=
            { status := 403,
              headers := [("X-Shield-Blocked", "true")],
              body := .jobj
                [("error", .jstr "Access Denied by DTG Shield"), ("reason", .jstr bl.2)] },
          checkedPolicy := true }
    else do
      let response := callNext request
      if response.status = 429 then
        let _ ← RiskEngine.increment_risk client_ip AUTH_FAIL_WEIGHT "Backend 429 Rate Limit"
        pure ()
      else if pyStartswith request.path "/api/v1/auth" ∧ response.status = 401 then
        let _ ← RiskEngine.increment_risk client_ip AUTH_FAIL_WEIGHT "Auth Failure"
        pure ()
      let response2 := setHeader response "X-Shield-Latency" (toString latencyMs)
      pure { resp := response2, checkedPolicy := true }

/-! ## Observers and concrete base state -/

/-- The rolling risk score visible in the store for an identity (none when the
key is absent, expired, or not integer-valued). -/
def riskScore (st : St) (ip : String) : Option Int :=
  match st.strs ("shield:risk:" ++ ip) with
  | some (v, exp) => if alive st.now exp then rvalInt? v else none
  | none => none

/-- The global block counter visible in the store (0 when absent, expired, or
not integer-valued). -/
def blockCount (st : St) : Int :=
  match st.strs "shield:block_count" with
  | some (v, exp) => if alive st.now exp then (rvalInt? v).getD 0 else 0
  | none => 0

/-- The empty store: no keys, no failures, unreachable external APIs. -/
def emptySt : St where
  now := 0
  strs := fun _ => none
  lists := fun _ => []
  zcards := fun _ => 0
  fails := fun _ _ => false
  geoApi := fun _ => .error "unreachable"
  vpnApi := fun _ => .error "unreachable"
  geoCalls := 0
  vpnCalls := 0

/-! ## Generic string-key lemmas -/

theorem append_right_ne {p q : String} (h : p ≠ q) (s : String) :
    p ++ s ≠ q ++ s := by
  intro he
  apply h
  apply String.ext
  have hd := congrArg String.data he
  simp only [String.data_append] at hd
  exact List.append_cancel_right hd

theorem append_ne_of_prefix_free (p s q : String) (h : ¬ p.data <+: q.data) :
    p ++ s ≠ q := by
  intro he
  apply h
  rw [← he, String.data_append]
  exact List.prefix_append p.data s.data

/-- A store with an active direct block for 8.8.8.8 (used to witness that the
admin bypass forwards even a fully blocked identity). -/
def stBlocked : St :=
  { emptySt with strs := fupd emptySt.strs "shield:block:8.8.8.8" (some (.vplain "manual", none)) }

/-- mapM of .upper() over a parsed list of JSON strings. -/
theorem mapM_pyUpper_jstr (L : List String) :
    (L.map JVal.jstr).mapM pyUpper = .ok (L.map upperStr) := by
  have hloop : ∀ (L : List String) (acc : List String),
      List.mapM.loop pyUpper (L.map JVal.jstr) acc =
        .ok (acc.reverse ++ L.map upperStr) := by
    intro L
    induction L with
    | nil => intro acc; simp [List.mapM.loop, pure, Except.pure]
    | cons x xs ih =>
        intro acc
        simp [List.mapM.loop, pyUpper, Bind.bind, Except.bind, ih (upperStr x :: acc)]
  simpa using hloop L []

/-- C6: a request whose path starts with the fixed administrative prefix is
forwarded without invoking is_ip_blocked or any risk/geo/policy evaluation —
the store state (hence every risk, geo, policy and counter key) is returned
untouched, for every state, including states where the identity holds an
active block record — and the response is the backend response tagged with the
X-Shield-Bypass marker. -/
theorem admin_bypass_skips_policy (cn : RiskEngine.Req → Resp) (lat : Nat)
    (req : RiskEngine.Req) (st : St)
    (h : pyStartswith req.path "/api/v1/admin/" = true) :
    shield_middleware cn lat req st =
      (.ok { resp := setHeader (cn req) "X-Shield-Bypass" "admin", checkedPolicy := false }, st)
    ∧ getHeader (setHeader (cn req) "X-Shield-Bypass" "admin") "X-Shield-Bypass" = some "admin" := by
  constructor
  · simp [shield_middleware, ADMIN_PATHS, h]
  · simp [getHeader, setHeader]

/-- Witness: a concrete admin-path request over a store in which the client
identity 8.8.8.8 is already blocked is still forwarded, with the bypass
marker, the store untouched, and the block check not invoked. -/
theorem admin_bypass_skips_policy_witness :
    pyStartswith "/api/v1/admin/login" "/api/v1/admin/" = true ∧
    (shield_middleware (fun _ => { status := 200, headers := [], body := .jnull }) 7
        { path := "/api/v1/admin/login", headers := fun _ => none, clientHost := "8.8.8.8" }
        stBlocked =
      (.ok { resp := setHeader { status := 200, headers := [], body := .jnull }
                "X-Shield-Bypass" "admin",
             checkedPolicy := false }, stBlocked)
    ∧ getHeader (setHeader { status := 200, headers := [], body := .jnull }
        "X-Shield-Bypass" "admin") "X-Shield-Bypass" = some "admin") :=
  ⟨rfl, admin_bypass_skips_policy _ 7 _ stBlocked rfl⟩

/-- C10: the layer-2 country comparison of is_ip_blocked (geoDecision, used on
the resolved country code and the parsed blocklist) is case-insensitive: the
deny decision is unchanged when the resolved code or any blocklist entry is
replaced by a case variant (same characters up to letter case, i.e. equal
after uppercasing), because both sides are uppercased before comparison. -/
theorem geoDecision_case_insensitive (c c2 : String) (l l2 : List String)
    (hc : upperStr c = upperStr c2)
    (hl : l.map upperStr = l2.map upperStr) :
    RiskEngine.geoDecision (.jstr c) (.jarr (l.map JVal.jstr)) =
      RiskEngine.geoDecision (.jstr c2) (.jarr (l2.map JVal.jstr)) := by
  have hd : c.data.map Char.toUpper = c2.data.map Char.toUpper := congrArg String.data hc
  by_cases hcod : c.data = []
  · have hc2d : c2.data = [] := by
      have h0 : c2.data.map Char.toUpper = [] := by rw [← hd, hcod]; rfl
      exact List.map_eq_nil_iff.mp h0
    have h1 : c = "" := String.ext hcod
    have h2 : c2 = "" := String.ext hc2d
    subst h1; subst h2
    rfl
  · have hc2d : c2.data ≠ [] := by
      intro h0
      apply hcod
      apply List.map_eq_nil_iff.mp
      rw [hd, h0]; rfl
    have hne1 : c ≠ "" := fun h0 => hcod (by rw [h0])
    have hne2 : c2 ≠ "" := fun h0 => hc2d (by rw [h0])
    simp only [RiskEngine.geoDecision, pyTruthy, bne_iff_ne, ne_eq, hne1, hne2,
      not_false_eq_true, if_true, pyUpper, pyIter, Bind.bind, Except.bind,
      mapM_pyUpper_jstr]
    simp [hc, hl]

/-- Witness: concrete case variants of the code and of the blocklist entries
give the same geo decision. -/
theorem geoDecision_case_insensitive_witness :
    upperStr "ru" = upperStr "Ru" ∧
    (["RU", "ge"].map upperStr = ["ru", "GE"].map upperStr ∧
    RiskEngine.geoDecision (.jstr "ru") (.jarr (["RU", "ge"].map JVal.jstr)) =
      RiskEngine.geoDecision (.jstr "Ru") (.jarr (["ru", "GE"].map JVal.jstr))) :=
  ⟨rfl, rfl, geoDecision_case_insensitive "ru" "Ru" ["RU", "ge"] ["ru", "GE"] rfl rfl⟩

/-- A store whose security policy caps biometric attempts at 0 and records no
attempts (used to witness the biometric-throttle claim). -/
def stBioZero : St :=
  { emptySt with strs := (fupd emptySt.strs "security:settings"
      (some (.vjson (.jobj [("max_biometric_attempts_per_ip", .jnum 0)]), none))) }

/-- C9: in the layer-3c biometric-throttle sub-check of is_ip_blocked, an
identity is denied only when its recorded attempt count is both truthy (at
least 1) and at least the configured cap; so under any security policy whose
max_biometric_attempts_per_ip parses to 0, an identity with zero recorded
attempts passes the sub-check (and, with the other layers quiescent, the whole
check allows, leaving the store untouched). -/
theorem biometric_throttle_zero_cap_passes (ip : String) (req : Option RiskEngine.Req)
    (st : St) (kvs : List (String × JVal)) (av bv : Option JVal)
    (hfail : st.fails = fun _ _ => false)
    (hblock : st.strs ("shield:block:" ++ ip) = none)
    (hgeo : st.strs "geo:settings" = none)
    (hsec : st.strs "security:settings" = some (.vjson (.jobj kvs), none))
    (hatt : jget (.jobj kvs) "require_device_attestation" = .ok av)
    (hatt2 : pyEqStr av "true" = false)
    (hvpn : jget (.jobj kvs) "block_vpn_and_proxy" = .ok bv)
    (hvpn2 : pyEqStr bv "true" = false)
    (hmax : (jgetD (.jobj kvs) "max_biometric_attempts_per_ip" (.jnum 10)).bind pyInt = .ok 0)
    (hbio : st.zcards ("rl:biometric:ip:" ++ ip) = 0)
    (hl1 : st.zcards ("rl:login:ip:" ++ ip) = 0)
    (hl2 : st.zcards ("rl:enrollment:ip:" ++ ip) = 0) :
    RiskEngine.is_ip_blocked ip req st = (.ok (false, ""), st) := by
  simp [RiskEngine.is_ip_blocked, RiskEngine.is_ip_blocked_rest, RiskEngine.layer2_geo,
    RiskEngine.layer3_security, RiskEngine.layer4_loop, mtry, rget, rzcard, liftE, alive,
    jsonLoads, hfail, hblock, hgeo, hsec, hatt, hatt2, hvpn, hvpn2, hmax, hbio, hl1, hl2]

/-- Witness: with the cap set to 0 and no recorded attempts, the check
allows. -/
theorem biometric_throttle_zero_cap_passes_witness :
    RiskEngine.is_ip_blocked "1.2.3.4" none stBioZero = (.ok (false, ""), stBioZero) :=
  biometric_throttle_zero_cap_passes "1.2.3.4" none stBioZero
    [("max_biometric_attempts_per_ip", .jnum 0)] none none
    rfl rfl rfl rfl rfl rfl rfl rfl rfl rfl rfl rfl

/-- A store configured so that layer 1 passes and layer 2 geo-blocks 1.2.3.4
(cached country RU, blocklist ["ru"]). -/
def stGeoDeny : St :=
  { emptySt with strs := (fun k =>
      if k = "geo:settings" then some (.vjson (.jobj [("geo_blocking_enabled", .jstr "true")]), none)
      else if k = "geo:blocked_countries" then some (.vjson (.jarr [.jstr "ru"]), none)
      else if k = "geo:ip:1.2.3.4" then some (.vjson (.jobj [("country_code", .jstr "RU")]), none)
      else none) }

/-- C3: the four policy layers are evaluated in the fixed order direct-block,
geo, security-policy, backend-heuristic, returning on the first that denies:
whenever layer 1 does not deny (no direct block record) and layer 2 denies
(geo-blocking enabled, resolved country in the blocklist), is_ip_blocked
returns the geo denial immediately and the store is completely untouched — in
particular no layer-3 or layer-4 side effect happens: no risk increment, no
audit-log append, no biometric or rate-limit counter read feeding a score, no
external VPN call. -/
theorem geo_deny_short_circuits (ip : String) (req : Option RiskEngine.Req) (st : St)
    (c : String) (bl : JVal)
    (hfail : st.fails = fun _ _ => false)
    (hblock : st.strs ("shield:block:" ++ ip) = none)
    (hgeo : st.strs "geo:settings" =
      some (.vjson (.jobj [("geo_blocking_enabled", .jstr "true")]), none))
    (hbl : st.strs "geo:blocked_countries" = some (.vjson bl, none))
    (hblt : pyTruthy bl = true)
    (hcache : st.strs ("geo:ip:" ++ ip) =
      some (.vjson (.jobj [("country_code", .jstr c)]), none))
    (hhit : RiskEngine.geoDecision (.jstr c) bl = .ok true) :
    RiskEngine.is_ip_blocked ip req st =
      (.ok (true, "Geo-Blocked: " ++ c ++ " is restricted"), st) := by
  simp [RiskEngine.is_ip_blocked, RiskEngine.is_ip_blocked_rest, RiskEngine.layer2_geo,
    RiskEngine._get_country_code, mtry, rget, liftE, alive, jsonLoads, jget, pyEqStr,
    pyStr, hfail, hblock, hgeo, hbl, hblt, hcache, hhit]

/-- Witness: over stGeoDeny the check returns the geo denial with the store
untouched. -/
theorem geo_deny_short_circuits_witness :
    RiskEngine.is_ip_blocked "1.2.3.4" none stGeoDeny =
      (.ok (true, "Geo-Blocked: RU is restricted"), stGeoDeny) :=
  geo_deny_short_circuits "1.2.3.4" none stGeoDeny "RU" (.jarr [.jstr "ru"])
    rfl rfl rfl rfl rfl rfl rfl

/-- A store in which the layer-1 direct-block GET raises (state store
unreachable for exactly that read). -/
def stL1Fail : St :=
  { emptySt with fails := (fun op k => op == "get" && k == "shield:block:1.2.3.4") }

/-- C1 counterexample: a store-read failure in the layer-1 direct-block check
is not caught — is_ip_blocked propagates the exception to its caller, refuting
that every lookup failure inside a layer is handled as inconclusive and that
is_ip_blocked never raises. -/
theorem is_ip_blocked_layer1_failure_raises :
    RiskEngine.is_ip_blocked "1.2.3.4" none stL1Fail = (.error "ConnectionError", stL1Fail) :=
  rfl

/-- C1 (amended): lookup failures inside the geo layer (2) and the
security-policy layer (3) — whether the store read raises or the cached
payload is malformed — are caught inside is_ip_blocked and treated as that
layer inconclusive, continuing to the following layers (no deny, no exception,
store returned unchanged); but a store-read failure in the layer-1
direct-block check is not caught and propagates the exception to the caller. -/
theorem is_ip_blocked_error_containment (ip : String) (req : Option RiskEngine.Req)
    (st1 st2 st3 : St) :
    (st1.fails "get" ("shield:block:" ++ ip) = true →
      RiskEngine.is_ip_blocked ip req st1 = (.error "ConnectionError", st1)) ∧
    ((st2.fails "get" ("shield:block:" ++ ip) = false ∧
      st2.strs ("shield:block:" ++ ip) = none ∧
      st2.fails "get" "geo:settings" = true ∧
      st2.fails "get" "security:settings" = true ∧
      st2.fails "zcard" ("rl:login:ip:" ++ ip) = false ∧
      st2.zcards ("rl:login:ip:" ++ ip) = 0 ∧
      st2.fails "zcard" ("rl:enrollment:ip:" ++ ip) = false ∧
      st2.zcards ("rl:enrollment:ip:" ++ ip) = 0) →
      RiskEngine.is_ip_blocked ip req st2 = (.ok (false, ""), st2)) ∧
    ((st3.fails = (fun _ _ => false) ∧
      st3.strs ("shield:block:" ++ ip) = none ∧
      st3.strs "geo:settings" = some (.vplain "not json", none) ∧
      st3.strs "security:settings" = some (.vplain "not json", none) ∧
      st3.zcards ("rl:login:ip:" ++ ip) = 0 ∧
      st3.zcards ("rl:enrollment:ip:" ++ ip) = 0) →
      RiskEngine.is_ip_blocked ip req st3 = (.ok (false, ""), st3)) := by
  refine ⟨fun h1 => ?_, fun h2 => ?_, fun h3 => ?_⟩
  · simp [RiskEngine.is_ip_blocked, rget, h1]
  · obtain ⟨a, b, c, d, e, f, g, h⟩ := h2
    simp [RiskEngine.is_ip_blocked, RiskEngine.is_ip_blocked_rest, RiskEngine.layer2_geo,
      RiskEngine.layer3_security, RiskEngine.layer4_loop, mtry, rget, rzcard, liftE, alive,
      a, b, c, d, e, f, g, h]
  · obtain ⟨a, b, c, d, e, f⟩ := h3
    simp [RiskEngine.is_ip_blocked, RiskEngine.is_ip_blocked_rest, RiskEngine.layer2_geo,
      RiskEngine.layer3_security, RiskEngine.layer4_loop, mtry, rget, rzcard, liftE, alive,
      jsonLoads, a, b, c, d, e, f]

/-- A store where the geo and security policy documents are present but
malformed, and one where their reads fail outright. -/
def stPolicyFail : St :=
  { emptySt with fails := (fun op k =>
      op == "get" && (k == "geo:settings" || k == "security:settings")) }

def stPolicyBad : St :=
  { emptySt with strs := (fun k =>
      if k = "geo:settings" then some (.vplain "not json", none)
      else if k = "security:settings" then some (.vplain "not json", none)
      else none) }

/-- Witness for the error-containment theorem at concrete stores. -/
theorem is_ip_blocked_error_containment_witness :
    (RiskEngine.is_ip_blocked "1.2.3.4" none stL1Fail = (.error "ConnectionError", stL1Fail)) ∧
    (RiskEngine.is_ip_blocked "1.2.3.4" none stPolicyFail = (.ok (false, ""), stPolicyFail)) ∧
    (RiskEngine.is_ip_blocked "1.2.3.4" none stPolicyBad = (.ok (false, ""), stPolicyBad)) := by
  obtain ⟨w1, w2, w3⟩ :=
    is_ip_blocked_error_containment "1.2.3.4" none stL1Fail stPolicyFail stPolicyBad
  exact ⟨w1 rfl, w2 ⟨rfl, rfl, rfl, rfl, rfl, rfl, rfl, rfl⟩, w3 ⟨rfl, rfl, rfl, rfl, rfl, rfl⟩⟩

/-- C7: once a reputation lookup has cached its result, a second call within
the 1-hour TTL window returns the identical result with the state (hence the
external-call counter) unchanged — no second external call — and a call at or
after TTL expiry performs a fresh external call. Stated for both cached
lookups: _check_vpn_cached and _get_country_code. -/
theorem reputation_cache_round_trip (ip : String) (stv stg : St)
    (p hq : Bool) (cc : String)
    (hvf1 : stv.fails "get" ("shield:vpn:" ++ ip) = false)
    (hvf2 : stv.fails "setex" ("shield:vpn:" ++ ip) = false)
    (hvk : stv.strs ("shield:vpn:" ++ ip) = none)
    (hvapi : stv.vpnApi ip =
      .ok (.jobj [("status", .jstr "success"), ("proxy", .jbool p), ("hosting", .jbool hq)]))
    (hgf1 : stg.fails "get" ("geo:ip:" ++ ip) = false)
    (hgf2 : stg.fails "setex" ("geo:ip:" ++ ip) = false)
    (hgk : stg.strs ("geo:ip:" ++ ip) = none)
    (hgapi : stg.geoApi ip =
      .ok (.jobj [("status", .jstr "success"), ("countryCode", .jstr cc)])) :
    (∃ st1,
      RiskEngine._check_vpn_cached ip stv =
        (.ok (.jbool (p || hq),
          .jstr ("proxy=" ++ pyStr (.jbool p) ++ ", hosting=" ++ pyStr (.jbool hq))), st1) ∧
      st1.vpnCalls = stv.vpnCalls + 1 ∧
      (∀ d : Nat, d < 3600 →
        RiskEngine._check_vpn_cached ip { st1 with now := st1.now + d } =
          (.ok (.jbool (p || hq),
            .jstr ("proxy=" ++ pyStr (.jbool p) ++ ", hosting=" ++ pyStr (.jbool hq))),
           { st1 with now := st1.now + d })) ∧
      (RiskEngine._check_vpn_cached ip { st1 with now := st1.now + 3600 }).2.vpnCalls =
        st1.vpnCalls + 1) ∧
    (∃ st2,
      RiskEngine._get_country_code ip stg = (.ok (some (.jstr cc)), st2) ∧
      st2.geoCalls = stg.geoCalls + 1 ∧
      (∀ d : Nat, d < 3600 →
        RiskEngine._get_country_code ip { st2 with now := st2.now + d } =
          (.ok (some (.jstr cc)), { st2 with now := st2.now + d })) ∧
      (RiskEngine._get_country_code ip { st2 with now := st2.now + 3600 }).2.geoCalls =
        st2.geoCalls + 1) := by
  constructor
  · refine ⟨{ stv with
        vpnCalls := stv.vpnCalls + 1,
        strs := fupd stv.strs ("shield:vpn:" ++ ip)
          (some (.vjson (.jobj
            [("is_vpn", .jbool (p || hq)),
             ("reason", .jstr ("proxy=" ++ pyStr (.jbool p) ++ ", hosting=" ++
               pyStr (.jbool hq)))]), some (stv.now + 3600))) }, ?_, rfl, ?_, ?_⟩
    · simp [RiskEngine._check_vpn_cached, callVpnApi, mtry, rget, rsetex, liftE, alive,
        jget, jgetD, pyEqStr, pyTruthy, Except.map, hvf1, hvf2, hvk, hvapi]
    · intro d hd
      have hlt : stv.now + d < stv.now + 3600 := by omega
      simp [RiskEngine._check_vpn_cached, rget, liftE, alive, jsonLoads, jget, jgetD,
        Except.map, hvf1, hlt, fupd]
    · have hge : ¬ stv.now + 3600 < stv.now + 3600 := by omega
      simp [RiskEngine._check_vpn_cached, callVpnApi, mtry, rget, rsetex, liftE, alive,
        jget, jgetD, pyEqStr, pyTruthy, Except.map, hvf1, hvf2, hvapi, hge, fupd]
  · refine ⟨{ stg with
        geoCalls := stg.geoCalls + 1,
        strs := fupd stg.strs ("geo:ip:" ++ ip)
          (some (.vjson (.jobj
            [("country_code", .jstr cc), ("ip", .jstr ip)]), some (stg.now + 3600))) },
        ?_, rfl, ?_, ?_⟩
    · simp [RiskEngine._get_country_code, callGeoApi, mtry, rget, rsetex, liftE, alive,
        jget, jgetD, pyEqStr, hgf1, hgf2, hgk, hgapi]
    · intro d hd
      have hlt : stg.now + d < stg.now + 3600 := by omega
      simp [RiskEngine._get_country_code, rget, liftE, alive, jsonLoads, jget, jgetD,
        Except.map, hgf1, hlt, fupd]
    · have hge : ¬ stg.now + 3600 < stg.now + 3600 := by omega
      simp [RiskEngine._get_country_code, callGeoApi, mtry, rget, rsetex, liftE, alive,
        jget, jgetD, pyEqStr, Except.map, hgf1, hgf2, hgapi, hge, fupd]

/-- A store whose external reputation APIs answer successfully (proxy yes,
hosting no, country GE). -/
def stApi : St :=
  { emptySt with
      vpnApi := (fun _ => .ok (.jobj
        [("status", .jstr "success"), ("proxy", .jbool true), ("hosting", .jbool false)])),
      geoApi := (fun _ => .ok (.jobj
        [("status", .jstr "success"), ("countryCode", .jstr "GE")])) }

/-- Witness for the cache round-trip at a concrete identity and API result. -/
theorem reputation_cache_round_trip_witness :
    (∃ st1,
      RiskEngine._check_vpn_cached "1.2.3.4" stApi =
        (.ok (.jbool (true || false),
          .jstr ("proxy=" ++ pyStr (.jbool true) ++ ", hosting=" ++ pyStr (.jbool false))), st1) ∧
      st1.vpnCalls = stApi.vpnCalls + 1 ∧
      (∀ d : Nat, d < 3600 →
        RiskEngine._check_vpn_cached "1.2.3.4" { st1 with now := st1.now + d } =
          (.ok (.jbool (true || false),
            .jstr ("proxy=" ++ pyStr (.jbool true) ++ ", hosting=" ++ pyStr (.jbool false))),
           { st1 with now := st1.now + d })) ∧
      (RiskEngine._check_vpn_cached "1.2.3.4" { st1 with now := st1.now + 3600 }).2.vpnCalls =
        st1.vpnCalls + 1) ∧
    (∃ st2,
      RiskEngine._get_country_code "1.2.3.4" stApi = (.ok (some (.jstr "GE")), st2) ∧
      st2.geoCalls = stApi.geoCalls + 1 ∧
      (∀ d : Nat, d < 3600 →
        RiskEngine._get_country_code "1.2.3.4" { st2 with now := st2.now + d } =
          (.ok (some (.jstr "GE")), { st2 with now := st2.now + d })) ∧
      (RiskEngine._get_country_code "1.2.3.4" { st2 with now := st2.now + 3600 }).2.geoCalls =
        st2.geoCalls + 1) :=
  reputation_cache_round_trip "1.2.3.4" stApi stApi true false "GE"
    rfl rfl rfl rfl rfl rfl rfl rfl

/-- C8: when the external reputation lookup fails (exception/timeout) or
returns a non-success status, the cached lookups return the negative/empty
result — (False, "") for VPN, None for country — and write no cache entry
(the only state change is the call counter), so an immediately following call
performs the external lookup again; when the lookup succeeds, the result is
cached with a 1-hour TTL. -/
theorem reputation_lookup_failure_not_cached (ip e1 e2 : String)
    (stv1 stv2 stg1 stg2 stv3 stg3 : St) (p hq : Bool) (cc : String) :
    ((stv1.fails "get" ("shield:vpn:" ++ ip) = false ∧
      stv1.strs ("shield:vpn:" ++ ip) = none ∧
      stv1.vpnApi ip = .error e1) →
      RiskEngine._check_vpn_cached ip stv1 =
        (.ok (.jbool false, .jstr ""), { stv1 with vpnCalls := stv1.vpnCalls + 1 }) ∧
      (RiskEngine._check_vpn_cached ip
        { stv1 with vpnCalls := stv1.vpnCalls + 1 }).2.vpnCalls = stv1.vpnCalls + 2) ∧
    ((stv2.fails "get" ("shield:vpn:" ++ ip) = false ∧
      stv2.strs ("shield:vpn:" ++ ip) = none ∧
      stv2.vpnApi ip = .ok (.jobj [("status", .jstr "fail")])) →
      RiskEngine._check_vpn_cached ip stv2 =
        (.ok (.jbool false, .jstr ""), { stv2 with vpnCalls := stv2.vpnCalls + 1 })) ∧
    ((stg1.fails "get" ("geo:ip:" ++ ip) = false ∧
      stg1.strs ("geo:ip:" ++ ip) = none ∧
      stg1.geoApi ip = .error e2) →
      RiskEngine._get_country_code ip stg1 =
        (.ok none, { stg1 with geoCalls := stg1.geoCalls + 1 }) ∧
      (RiskEngine._get_country_code ip
        { stg1 with geoCalls := stg1.geoCalls + 1 }).2.geoCalls = stg1.geoCalls + 2) ∧
    ((stg2.fails "get" ("geo:ip:" ++ ip) = false ∧
      stg2.strs ("geo:ip:" ++ ip) = none ∧
      stg2.geoApi ip = .ok (.jobj [("status", .jstr "fail")])) →
      RiskEngine._get_country_code ip stg2 =
        (.ok none, { stg2 with geoCalls := stg2.geoCalls + 1 })) ∧
    ((stv3.fails "get" ("shield:vpn:" ++ ip) = false ∧
      stv3.fails "setex" ("shield:vpn:" ++ ip) = false ∧
      stv3.strs ("shield:vpn:" ++ ip) = none ∧
      stv3.vpnApi ip = .ok (.jobj
        [("status", .jstr "success"), ("proxy", .jbool p), ("hosting", .jbool hq)])) →
      ((RiskEngine._check_vpn_cached ip stv3).2.strs ("shield:vpn:" ++ ip) =
        some (.vjson (.jobj
          [("is_vpn", .jbool (p || hq)),
           ("reason", .jstr ("proxy=" ++ pyStr (.jbool p) ++ ", hosting=" ++
             pyStr (.jbool hq)))]), some (stv3.now + 3600)))) ∧
    ((stg3.fails "get" ("geo:ip:" ++ ip) = false ∧
      stg3.fails "setex" ("geo:ip:" ++ ip) = false ∧
      stg3.strs ("geo:ip:" ++ ip) = none ∧
      stg3.geoApi ip = .ok (.jobj
        [("status", .jstr "success"), ("countryCode", .jstr cc)])) →
      ((RiskEngine._get_country_code ip stg3).2.strs ("geo:ip:" ++ ip) =
        some (.vjson (.jobj [("country_code", .jstr cc), ("ip", .jstr ip)]),
          some (stg3.now + 3600)))) := by
  refine ⟨fun ⟨a, b, c⟩ => ?_, fun ⟨a, b, c⟩ => ?_, fun ⟨a, b, c⟩ => ?_,
    fun ⟨a, b, c⟩ => ?_, fun ⟨a, b, c, d⟩ => ?_, fun ⟨a, b, c, d⟩ => ?_⟩
  · constructor <;>
      simp [RiskEngine._check_vpn_cached, callVpnApi, mtry, rget, liftE, alive,
        jget, jgetD, pyEqStr, Except.map, a, b, c]
  · simp [RiskEngine._check_vpn_cached, callVpnApi, mtry, rget, liftE, alive,
      jget, jgetD, pyEqStr, Except.map, a, b, c]
  · constructor <;>
      simp [RiskEngine._get_country_code, callGeoApi, mtry, rget, liftE, alive,
        jget, jgetD, pyEqStr, Except.map, a, b, c]
  · simp [RiskEngine._get_country_code, callGeoApi, mtry, rget, liftE, alive,
      jget, jgetD, pyEqStr, Except.map, a, b, c]
  · simp [RiskEngine._check_vpn_cached, callVpnApi, mtry, rget, rsetex, liftE, alive,
      jget, jgetD, pyEqStr, pyTruthy, Except.map, a, b, c, d, fupd]
  · simp [RiskEngine._get_country_code, callGeoApi, mtry, rget, rsetex, liftE, alive,
      jget, jgetD, pyEqStr, Except.map, a, b, c, d, fupd]

/-- A store whose reputation APIs are unreachable, and one whose APIs answer
with a non-success status. -/
def stApiDown : St := emptySt

def stApiFail : St :=
  { emptySt with
      vpnApi := (fun _ => .ok (.jobj [("status", .jstr "fail")])),
      geoApi := (fun _ => .ok (.jobj [("status", .jstr "fail")])) }

/-- Witness for the failure-not-cached theorem at concrete stores. -/
theorem reputation_lookup_failure_not_cached_witness :
    (RiskEngine._check_vpn_cached "1.2.3.4" stApiDown =
        (.ok (.jbool false, .jstr ""), { stApiDown with vpnCalls := stApiDown.vpnCalls + 1 }) ∧
      (RiskEngine._check_vpn_cached "1.2.3.4"
        { stApiDown with vpnCalls := stApiDown.vpnCalls + 1 }).2.vpnCalls =
          stApiDown.vpnCalls + 2) ∧
    (RiskEngine._check_vpn_cached "1.2.3.4" stApiFail =
      (.ok (.jbool false, .jstr ""), { stApiFail with vpnCalls := stApiFail.vpnCalls + 1 })) ∧
    (RiskEngine._get_country_code "1.2.3.4" stApiDown =
        (.ok none, { stApiDown with geoCalls := stApiDown.geoCalls + 1 }) ∧
      (RiskEngine._get_country_code "1.2.3.4"
        { stApiDown with geoCalls := stApiDown.geoCalls + 1 }).2.geoCalls =
          stApiDown.geoCalls + 2) ∧
    (RiskEngine._get_country_code "1.2.3.4" stApiFail =
      (.ok none, { stApiFail with geoCalls := stApiFail.geoCalls + 1 })) ∧
    ((RiskEngine._check_vpn_cached "1.2.3.4" stApi).2.strs "shield:vpn:1.2.3.4" =
      some (.vjson (.jobj
        [("is_vpn", .jbool (true || false)),
         ("reason", .jstr ("proxy=" ++ pyStr (.jbool true) ++ ", hosting=" ++
           pyStr (.jbool false)))]), some (stApi.now + 3600))) ∧
    ((RiskEngine._get_country_code "1.2.3.4" stApi).2.strs "geo:ip:1.2.3.4" =
      some (.vjson (.jobj [("country_code", .jstr "GE"), ("ip", .jstr "1.2.3.4")]),
        some (stApi.now + 3600))) := by
  obtain ⟨w1, w2, w3, w4, w5, w6⟩ :=
    reputation_lookup_failure_not_cached "1.2.3.4" "unreachable" "unreachable"
      stApiDown stApiFail stApiDown stApiFail stApi stApi true false "GE"
  exact ⟨w1 ⟨rfl, rfl, rfl⟩, w2 ⟨rfl, rfl, rfl⟩, w3 ⟨rfl, rfl, rfl⟩, w4 ⟨rfl, rfl, rfl⟩,
    w5 ⟨rfl, rfl, rfl, rfl⟩, w6 ⟨rfl, rfl, rfl, rfl⟩⟩

theorem getHeader_setHeader_same (r : Resp) (k v : String) :
    getHeader (setHeader r k v) k = some v := by
  simp [getHeader, setHeader, List.find?_cons]

theorem getHeader_setHeader_ne (r : Resp) (k v k2 : String) (h : k2 ≠ k) :
    getHeader (setHeader r k v) k2 = getHeader r k2 := by
  have hne : ((k, v).1 == k2) = false := by
    simp only [beq_eq_false_iff_ne, ne_eq]
    exact fun he => h he.symm
  simp [getHeader, setHeader, List.find?_cons, hne]

/-- C5 counterexample: neither the admin-bypass response nor a 403 denial
carries the X-Shield-Latency header, refuting that the middleware attaches the
observed-latency header to every response it returns. -/
theorem latency_header_missing_on_bypass_and_denied :
    ((shield_middleware (fun _ => { status := 200, headers := [], body := .jnull }) 7
        { path := "/api/v1/admin/x", headers := fun _ => none, clientHost := "8.8.8.8" }
        emptySt).1.map (fun o => getHeader o.resp "X-Shield-Latency") = .ok none) ∧
    ((shield_middleware (fun _ => { status := 200, headers := [], body := .jnull }) 7
        { path := "/api/v1/face", headers := fun _ => none, clientHost := "8.8.8.8" }
        stBlocked).1.map (fun o => getHeader o.resp "X-Shield-Latency") = .ok none) :=
  ⟨rfl, rfl⟩

/-- C5 (amended): the middleware attaches X-Shield-Latency only on the allowed
non-admin path: a forwarded response (block check negative, no post-hoc risk
adjustment) carries it; an admin-bypass response carries no latency header
beyond whatever the backend already set, and a 403 denial carries none. -/
theorem latency_header_only_on_allowed (cn : RiskEngine.Req → Resp) (lat : Nat)
    (req : RiskEngine.Req) (st st2 st3 : St) (rsn rsn2 : String) :
    (pyStartswith req.path "/api/v1/admin/" = true →
      (shield_middleware cn lat req st).1.map
          (fun o => getHeader o.resp "X-Shield-Latency") =
        .ok (getHeader (cn req) "X-Shield-Latency")) ∧
    ((pyStartswith req.path "/api/v1/admin/" = false ∧
      RiskEngine.is_ip_blocked (client_ip_of req) (some req) st =
        (.ok (true, rsn), st2)) →
      (shield_middleware cn lat req st).1.map
          (fun o => getHeader o.resp "X-Shield-Latency") = .ok none) ∧
    ((pyStartswith req.path "/api/v1/admin/" = false ∧
      RiskEngine.is_ip_blocked (client_ip_of req) (some req) st =
        (.ok (false, rsn2), st3) ∧
      (cn req).status ≠ 429 ∧
      ¬(pyStartswith req.path "/api/v1/auth" = true ∧ (cn req).status = 401)) →
      (shield_middleware cn lat req st).1.map
          (fun o => getHeader o.resp "X-Shield-Latency") =
        .ok (some (toString lat))) := by
  refine ⟨fun h1 => ?_, fun ⟨h2, hb⟩ => ?_, fun ⟨h3, hb, h429, h401⟩ => ?_⟩
  · simp [shield_middleware, ADMIN_PATHS, h1, Except.map,
      getHeader_setHeader_ne (cn req) "X-Shield-Bypass" "admin" "X-Shield-Latency"
        (by decide)]
  · simp [shield_middleware, ADMIN_PATHS, h2, hb, Except.map, getHeader]
  · simp [shield_middleware, ADMIN_PATHS, h3, hb, h429, h401, Except.map,
      getHeader_setHeader_same]

/-- Witness: a concrete allowed request receives the latency header while the
admin and denied branches of the same theorem apply at their inputs. -/
theorem latency_header_only_on_allowed_witness :
    ((shield_middleware (fun _ => { status := 200, headers := [], body := .jnull }) 7
        { path := "/api/v1/face", headers := fun _ => none, clientHost := "9.9.9.9" }
        emptySt).1.map (fun o => getHeader o.resp "X-Shield-Latency") =
      .ok (some (toString 7))) := by
  obtain ⟨-, -, w3⟩ :=
    latency_header_only_on_allowed
      (fun _ => { status := 200, headers := [], body := .jnull }) 7
      { path := "/api/v1/face", headers := fun _ => none, clientHost := "9.9.9.9" }
      emptySt emptySt emptySt "" ""
  exact w3 ⟨rfl, rfl, by decide, by simp⟩

/-- The global block counter key holds an integer value (or nothing), as every
write the system makes to it does. -/
def counterOk (st : St) : Prop :=
  st.strs "shield:block_count" = none ∨
    ∃ n exp, st.strs "shield:block_count" = some (.vint n, exp)

theorem block_key_ne_risk_key (ip : String) :
    ("shield:block:" ++ ip) ≠ ("shield:risk:" ++ ip) :=
  append_right_ne (by decide) ip

theorem risk_key_ne_counter (ip : String) :
    ("shield:risk:" ++ ip) ≠ "shield:block_count" :=
  append_ne_of_prefix_free _ _ _ (by decide)

theorem block_key_ne_counter (ip : String) :
    ("shield:block:" ++ ip) ≠ "shield:block_count" :=
  append_ne_of_prefix_free _ _ _ (by decide)

/-- Running block_ip on a failure-free store with a well-typed counter
succeeds, preserves the clock, the failure map, the well-typed counter,
every string key other than the block key and the counter, and all lists. -/
theorem block_ip_frame (ip reason : String) (dur : Nat) (st : St)
    (hfail : st.fails = fun _ _ => false) (hc : counterOk st) :
    ∃ st', RiskEngine.block_ip ip reason dur st = (.ok (), st') ∧
      st'.now = st.now ∧ st'.fails = st.fails ∧ counterOk st' ∧
      st'.lists = st.lists ∧ st'.zcards = st.zcards ∧
      st'.geoCalls = st.geoCalls ∧ st'.vpnCalls = st.vpnCalls ∧
      ∀ k, k ≠ "shield:block:" ++ ip → k ≠ "shield:block_count" →
        st'.strs k = st.strs k := by
  have hbc : "shield:block_count" ≠ "shield:block:" ++ ip :=
    fun h => (block_key_ne_counter ip) h.symm
  rcases hb : st.strs ("shield:block:" ++ ip) with _ | ⟨v, exp⟩
  · -- no existing record: SETEX, then INCR the counter
    rcases hc with hc | ⟨n, cexp, hc⟩
    · refine ⟨{ st with strs := (fupd (fupd st.strs ("shield:block:" ++ ip)
          (some (.vplain reason, some (st.now + dur)))) "shield:block_count"
          (some (.vint 1, none))) }, ?_, rfl, rfl, ?_, rfl, rfl, rfl, rfl, ?_⟩
      · simp [RiskEngine.block_ip, rexists, rsetex, rincrby, hb, hc, hfail,
          fupd_other _ _ _ _ hbc]
      · exact Or.inr ⟨1, none, by simp⟩
      · intro k h1 h2
        simp [fupd_other _ _ _ _ h2, fupd_other _ _ _ _ h1]
    · by_cases hal : alive st.now cexp
      · refine ⟨{ st with strs := (fupd (fupd st.strs ("shield:block:" ++ ip)
            (some (.vplain reason, some (st.now + dur)))) "shield:block_count"
            (some (.vint (n + 1), cexp))) }, ?_, rfl, rfl, ?_, rfl, rfl, rfl, rfl, ?_⟩
        · simp [RiskEngine.block_ip, rexists, rsetex, rincrby, rvalInt?, hb, hc, hal, hfail,
            fupd_other _ _ _ _ hbc]
        · exact Or.inr ⟨n + 1, cexp, by simp⟩
        · intro k h1 h2
          simp [fupd_other _ _ _ _ h2, fupd_other _ _ _ _ h1]
      · simp only [Bool.not_eq_true] at hal
        refine ⟨{ st with strs := (fupd (fupd st.strs ("shield:block:" ++ ip)
            (some (.vplain reason, some (st.now + dur)))) "shield:block_count"
            (some (.vint 1, none))) }, ?_, rfl, rfl, ?_, rfl, rfl, rfl, rfl, ?_⟩
        · simp [RiskEngine.block_ip, rexists, rsetex, rincrby, rvalInt?, hb, hc, hal, hfail,
            fupd_other _ _ _ _ hbc]
        · exact Or.inr ⟨1, none, by simp⟩
        · intro k h1 h2
          simp [fupd_other _ _ _ _ h2, fupd_other _ _ _ _ h1]
  · -- a record exists: the counter moves only when the record has lapsed
    by_cases hal : alive st.now exp
    · refine ⟨{ st with strs := (fupd st.strs ("shield:block:" ++ ip)
          (some (.vplain reason, some (st.now + dur)))) }, ?_, rfl, rfl, ?_, rfl, rfl, rfl,
          rfl, ?_⟩
      · simp [RiskEngine.block_ip, rexists, rsetex, hb, hal, hfail]
      · rcases hc with hc | ⟨n, cexp, hc⟩
        · exact Or.inl (by simp [fupd_other _ _ _ _ hbc, hc])
        · exact Or.inr ⟨n, cexp, by simp [fupd_other _ _ _ _ hbc, hc]⟩
      · intro k h1 h2
        simp [fupd_other _ _ _ _ h1]
    · simp only [Bool.not_eq_true] at hal
      rcases hc with hc | ⟨n, cexp, hc⟩
      · refine ⟨{ st with strs := (fupd (fupd st.strs ("shield:block:" ++ ip)
            (some (.vplain reason, some (st.now + dur)))) "shield:block_count"
            (some (.vint 1, none))) }, ?_, rfl, rfl, ?_, rfl, rfl, rfl, rfl, ?_⟩
        · simp [RiskEngine.block_ip, rexists, rsetex, rincrby, hb, hc, hal, hfail,
            fupd_other _ _ _ _ hbc]
        · exact Or.inr ⟨1, none, by simp⟩
        · intro k h1 h2
          simp [fupd_other _ _ _ _ h2, fupd_other _ _ _ _ h1]
      · by_cases hale : alive st.now cexp
        · refine ⟨{ st with strs := (fupd (fupd st.strs ("shield:block:" ++ ip)
              (some (.vplain reason, some (st.now + dur)))) "shield:block_count"
              (some (.vint (n + 1), cexp))) }, ?_, rfl, rfl, ?_, rfl, rfl, rfl, rfl, ?_⟩
          · simp [RiskEngine.block_ip, rexists, rsetex, rincrby, rvalInt?, hb, hc, hal, hale,
              hfail, fupd_other _ _ _ _ hbc]
          · exact Or.inr ⟨n + 1, cexp, by simp⟩
          · intro k h1 h2
            simp [fupd_other _ _ _ _ h2, fupd_other _ _ _ _ h1]
        · simp only [Bool.not_eq_true] at hale
          refine ⟨{ st with strs := (fupd (fupd st.strs ("shield:block:" ++ ip)
              (some (.vplain reason, some (st.now + dur)))) "shield:block_count"
              (some (.vint 1, none))) }, ?_, rfl, rfl, ?_, rfl, rfl, rfl, rfl, ?_⟩
          · simp [RiskEngine.block_ip, rexists, rsetex, rincrby, rvalInt?, hb, hc, hal, hale,
              hfail, fupd_other _ _ _ _ hbc]
          · exact Or.inr ⟨1, none, by simp⟩
          · intro k h1 h2
            simp [fupd_other _ _ _ _ h2, fupd_other _ _ _ _ h1]

theorem counterOk_of_strs_eq {st st' : St}
    (h : st'.strs "shield:block_count" = st.strs "shield:block_count")
    (hc : counterOk st) : counterOk st' := by
  rcases hc with hc | ⟨n, cexp, hc⟩
  · exact Or.inl (h.trans hc)
  · exact Or.inr ⟨n, cexp, h.trans hc⟩

/-- The auto-block tail of increment_risk: whether or not the threshold is
crossed, it succeeds with value None, keeps the clock and failure map, keeps
the counter well-typed, and touches at most the block key and the counter. -/
theorem increment_risk_tail (c : Prop) [Decidable c] (ip rsn : String) (Y : St)
    (hfail : Y.fails = fun _ _ => false) (hc : counterOk Y) :
    ∃ st', (if c then RiskEngine.block_ip ip rsn 3600 >>= fun _ =>
          (pure none : M (Option Int))
        else (pure PUnit.unit : M PUnit) >>= fun _ => (pure none : M (Option Int))) Y
        = (.ok none, st') ∧
      st'.now = Y.now ∧ st'.fails = Y.fails ∧ counterOk st' ∧
      ∀ k, k ≠ "shield:block:" ++ ip → k ≠ "shield:block_count" →
        st'.strs k = Y.strs k := by
  by_cases hcc : c
  · obtain ⟨st', h1, h2, h3, h4, h5, h6, h7, h8, h9⟩ := block_ip_frame ip rsn 3600 Y hfail hc
    refine ⟨st', ?_, h2, h3, h4, h9⟩
    rw [if_pos hcc]
    simp [h1]
  · refine ⟨Y, ?_, rfl, rfl, hc, fun k h1 h2 => rfl⟩
    rw [if_neg hcc]
    simp

/-- One increment_risk call on a failure-free store whose risk key holds a
live integer v: it returns None (Python has no return statement there), sets
the score to v + amount, refreshes the TTL to a fresh hour, and preserves the
clock, the failure map and the well-typed counter — whether or not the
auto-block fires. -/
theorem increment_risk_step (ip r : String) (a : Int) (st : St) (v : Int) (e : Nat)
    (hfail : st.fails = fun _ _ => false)
    (hk : st.strs ("shield:risk:" ++ ip) = some (.vint v, some e))
    (hlive : st.now < e)
    (hc : counterOk st) :
    ∃ st', RiskEngine.increment_risk ip a r st = (.ok none, st') ∧
      st'.strs ("shield:risk:" ++ ip) = some (.vint (v + a), some (st.now + 3600)) ∧
      st'.now = st.now ∧ st'.fails = st.fails ∧ counterOk st' := by
  have hrc := risk_key_ne_counter ip
  have hrb : ("shield:risk:" ++ ip) ≠ "shield:block:" ++ ip :=
    fun h => block_key_ne_risk_key ip h.symm
  obtain ⟨st', htail, hnow, hfails, hcnt, hframe⟩ :=
    increment_risk_tail (v + a ≥ BLOCK_THRESHOLD) ip
      ("Risk score exceeded: " ++ toString (v + a))
      { st with
        strs := (fupd (fupd st.strs ("shield:risk:" ++ ip) (some (.vint (v + a), some e)))
          ("shield:risk:" ++ ip) (some (.vint (v + a), some (st.now + 3600)))),
        lists := (fupd (fupd st.lists ("shield:logs:" ++ ip)
          (RVal.vjson (.jobj [("timestamp", .jstr (toString st.now)), ("amount", .jnum a),
            ("reason", .jstr r), ("total_score", .jnum (v + a))]) ::
              st.lists ("shield:logs:" ++ ip)))
          ("shield:logs:" ++ ip)
          ((RVal.vjson (.jobj [("timestamp", .jstr (toString st.now)), ("amount", .jnum a),
            ("reason", .jstr r), ("total_score", .jnum (v + a))]) ::
              st.lists ("shield:logs:" ++ ip)).take 50)) }
      (by simp [hfail])
      (counterOk_of_strs_eq (by simp [fupd_other _ _ _ _ hrc.symm]) hc)
  refine ⟨st', ?_, ?_, ?_, ?_, hcnt⟩
  · rw [← htail]
    simp [RiskEngine.increment_risk, rincrby, rexpire, nowIso,
      rlpush, rltrim, hfail, hk, rvalInt?, alive, hlive, fupd_same]
  · rw [hframe _ hrb hrc]
    simp
  · rw [hnow]
  · rw [hfails]

/-- One increment_risk call when the risk key is absent (score implicitly 0):
the score becomes the amount with a fresh 1-hour TTL. -/
theorem increment_risk_step0 (ip r : String) (a : Int) (st : St)
    (hfail : st.fails = fun _ _ => false)
    (hk : st.strs ("shield:risk:" ++ ip) = none)
    (hc : counterOk st) :
    ∃ st', RiskEngine.increment_risk ip a r st = (.ok none, st') ∧
      st'.strs ("shield:risk:" ++ ip) = some (.vint a, some (st.now + 3600)) ∧
      st'.now = st.now ∧ st'.fails = st.fails ∧ counterOk st' := by
  have hrc := risk_key_ne_counter ip
  have hrb : ("shield:risk:" ++ ip) ≠ "shield:block:" ++ ip :=
    fun h => block_key_ne_risk_key ip h.symm
  obtain ⟨st', htail, hnow, hfails, hcnt, hframe⟩ :=
    increment_risk_tail (a ≥ BLOCK_THRESHOLD) ip
      ("Risk score exceeded: " ++ toString a)
      { st with
        strs := (fupd (fupd st.strs ("shield:risk:" ++ ip) (some (.vint a, none)))
          ("shield:risk:" ++ ip) (some (.vint a, some (st.now + 3600)))),
        lists := (fupd (fupd st.lists ("shield:logs:" ++ ip)
          (RVal.vjson (.jobj [("timestamp", .jstr (toString st.now)), ("amount", .jnum a),
            ("reason", .jstr r), ("total_score", .jnum a)]) ::
              st.lists ("shield:logs:" ++ ip)))
          ("shield:logs:" ++ ip)
          ((RVal.vjson (.jobj [("timestamp", .jstr (toString st.now)), ("amount", .jnum a),
            ("reason", .jstr r), ("total_score", .jnum a)]) ::
              st.lists ("shield:logs:" ++ ip)).take 50)) }
      (by simp [hfail])
      (counterOk_of_strs_eq (by simp [fupd_other _ _ _ _ hrc.symm]) hc)
  refine ⟨st', ?_, ?_, ?_, ?_, hcnt⟩
  · rw [← htail]
    simp [RiskEngine.increment_risk, rincrby, rexpire, nowIso,
      rlpush, rltrim, hfail, hk, rvalInt?, alive, fupd_same]
  · rw [hframe _ hrb hrc]
    simp
  · rw [hnow]
  · rw [hfails]

/-- A sequence of increment_risk calls for one identity, each performed after
the given delay (in seconds) since the previous call. -/
def incRun (ip : String) : List (Nat × Int × String) → M PUnit
  | [] => pure PUnit.unit
  | (d, a, r) :: rest => do
      tick d
      let _ ← RiskEngine.increment_risk ip a r
      incRun ip rest

theorem incRun_inv (ip : String) (l : List (Nat × Int × String)) :
    ∀ (st : St) (v : Int),
    st.fails = (fun _ _ => false) →
    st.strs ("shield:risk:" ++ ip) = some (.vint v, some (st.now + 3600)) →
    counterOk st →
    (∀ x ∈ l, x.1 < 3600) →
    ∃ st', incRun ip l st = (.ok PUnit.unit, st') ∧
      st'.strs ("shield:risk:" ++ ip) =
        some (.vint (v + (l.map (fun x => x.2.1)).sum), some (st'.now + 3600)) ∧
      st'.fails = st.fails ∧ counterOk st' := by
  induction l with
  | nil =>
      intro st v hf hk hc hd
      exact ⟨st, rfl, by simpa using hk, rfl, hc⟩
  | cons x rest ih =>
      intro st v hf hk hc hd
      obtain ⟨d, a, r⟩ := x
      have hdlt : d < 3600 := hd (d, a, r) (List.mem_cons_self _ _)
      obtain ⟨st2, hrun2, hk2, hnow2, hf2, hc2⟩ :=
        increment_risk_step ip r a { st with now := st.now + d } v (st.now + 3600)
          (by simpa using hf) (by simpa using hk) (by simp; omega) hc
      simp only [St.now] at hnow2
      have hf2s : st2.fails = (fun _ _ => false) := by
        rw [hf2]; simpa using hf
      have hk2s : st2.strs ("shield:risk:" ++ ip) =
          some (.vint (v + a), some (st2.now + 3600)) := by
        rw [hnow2]; simpa using hk2
      obtain ⟨st', hrun3, hk3, hf3, hc3⟩ :=
        ih st2 (v + a) hf2s hk2s hc2 (fun y hy => hd y (List.mem_cons_of_mem _ hy))
      refine ⟨st', ?_, ?_, ?_, hc3⟩
      · simp only [incRun, bind_apply, pure_apply, tick, hrun2, hrun3]
      · rw [hk3]
        simp [add_assoc]
      · rw [hf3, hf2]

/-- C2 (amended): within a TTL window (every consecutive delay below one
hour), a first increment on an absent risk key followed by further increments
accumulates additively — the stored rolling score after the run equals the sum
of all the amounts — but each increment_risk call returns None (Python falls
off the function without a return statement), not the new total. -/
theorem increment_risk_additive (ip : String) (x : Nat × Int × String)
    (l : List (Nat × Int × String)) (st : St)
    (hf : st.fails = fun _ _ => false)
    (hk : st.strs ("shield:risk:" ++ ip) = none)
    (hc : counterOk st)
    (hd : ∀ y ∈ x :: l, y.1 < 3600) :
    ∃ st', incRun ip (x :: l) st = (.ok PUnit.unit, st') ∧
      riskScore st' ip = some (((x :: l).map (fun y => y.2.1)).sum) ∧
      (RiskEngine.increment_risk ip x.2.1 x.2.2 { st with now := st.now + x.1 }).1 =
        .ok none := by
  obtain ⟨d, a, r⟩ := x
  obtain ⟨st2, hrun2, hk2, hnow2, hf2, hc2⟩ :=
    increment_risk_step0 ip r a { st with now := st.now + d }
      (by simpa using hf) (by simpa using hk) hc
  simp only [St.now] at hnow2
  have hf2s : st2.fails = (fun _ _ => false) := by
    rw [hf2]; simpa using hf
  have hk2s : st2.strs ("shield:risk:" ++ ip) =
      some (.vint a, some (st2.now + 3600)) := by
    rw [hnow2]; simpa using hk2
  obtain ⟨st', hrun3, hk3, hf3, hc3⟩ :=
    incRun_inv ip l st2 a hf2s hk2s hc2 (fun y hy => hd y (List.mem_cons_of_mem _ hy))
  refine ⟨st', ?_, ?_, ?_⟩
  · simp only [incRun, bind_apply, pure_apply, tick, hrun2, hrun3]
  · rw [riskScore, hk3]
    simp [alive, rvalInt?]
  · rw [hrun2]

/-- C2 counterexample: increment_risk has no return statement, so its value is
None even as the rolling score becomes 5 — the claimed newTotal is not
returned to the caller. -/
theorem increment_risk_returns_none :
    ((RiskEngine.increment_risk "1.2.3.4" 5 "probe") emptySt).1 = .ok none ∧
    riskScore ((RiskEngine.increment_risk "1.2.3.4" 5 "probe") emptySt).2 "1.2.3.4" = some 5 ∧
    (Except.ok (none : Option Int) : Except String (Option Int)) ≠ .ok (some 5) :=
  ⟨rfl, rfl, by simp⟩

/-- Witness: three increments of 40 within the window leave the score at 120
(the third crossing the block threshold), and an increment returns None. -/
theorem increment_risk_additive_witness :
    ∃ st', incRun "1.2.3.4"
        ((0, 40, "Auth Failure") :: [(10, 40, "Auth Failure"), (10, 40, "Auth Failure")])
        emptySt = (.ok PUnit.unit, st') ∧
      riskScore st' "1.2.3.4" =
        some ((((0, 40, "Auth Failure") ::
          [(10, 40, "Auth Failure"), (10, 40, "Auth Failure")]).map
            (fun y => y.2.1)).sum) ∧
      (RiskEngine.increment_risk "1.2.3.4" (0, (40 : Int), "Auth Failure").2.1
          (0, (40 : Int), "Auth Failure").2.2
          { emptySt with now := emptySt.now + (0, (40 : Int), "Auth Failure").1 }).1 =
        .ok none :=
  increment_risk_additive "1.2.3.4" (0, 40, "Auth Failure")
    [(10, 40, "Auth Failure"), (10, 40, "Auth Failure")] emptySt
    rfl rfl (Or.inl rfl) (by decide)

/-! Monotonicity of the global block counter: no operation of the service ever
decreases it. -/

/-- The program never decreases the observed global block counter. -/
def CounterMono {α : Type} (m : M α) : Prop :=
  ∀ st : St, blockCount st ≤ blockCount (m st).2

theorem blockCount_eq_of {st st' : St}
    (hs : st'.strs "shield:block_count" = st.strs "shield:block_count")
    (hn : st'.now = st.now) : blockCount st' = blockCount st := by
  unfold blockCount
  rw [hs, hn]

theorem cm_pure {α : Type} (a : α) : CounterMono (pure a : M α) := fun _ => le_refl _

theorem cm_bind {α β : Type} {m : M α} {f : α → M β}
    (hm : CounterMono m) (hf : ∀ a, CounterMono (f a)) : CounterMono (m >>= f) := by
  intro st
  have h1 := hm st
  rcases hrun : m st with ⟨res, s1⟩
  rw [hrun] at h1
  rcases res with e | a
  · simpa [bind_apply, hrun] using h1
  · exact le_trans h1 (by simpa [bind_apply, hrun] using hf a s1)

theorem cm_mtry {α : Type} {m : M α} {h : String → M α}
    (hm : CounterMono m) (hh : ∀ e, CounterMono (h e)) : CounterMono (mtry m h) := by
  intro st
  have h1 := hm st
  rcases hrun : m st with ⟨res, s1⟩
  rw [hrun] at h1
  rcases res with e | a
  · exact le_trans h1 (by simpa [mtry, hrun] using hh e s1)
  · simpa [mtry, hrun] using h1

theorem cm_ite {α : Type} (c : Prop) [Decidable c] {m1 m2 : M α}
    (h1 : CounterMono m1) (h2 : CounterMono m2) :
    CounterMono (if c then m1 else m2) := by
  by_cases hc : c
  · rw [if_pos hc]; exact h1
  · rw [if_neg hc]; exact h2

theorem cm_liftE {α : Type} (e : Except String α) : CounterMono (liftE e) :=
  fun _ => le_refl _

/-- A program whose final state keeps the counter key and the clock is
counter-monotone. -/
theorem cm_of_snd_eq {α : Type} {m : M α}
    (h : ∀ st, (m st).2.strs "shield:block_count" = st.strs "shield:block_count" ∧
      (m st).2.now = st.now) : CounterMono m :=
  fun st => le_of_eq (blockCount_eq_of (h st).1 (h st).2).symm

theorem cm_rget (k : String) : CounterMono (rget k) := by
  apply cm_of_snd_eq
  intro st
  unfold rget
  split
  · exact ⟨rfl, rfl⟩
  · rcases st.strs k with _ | ⟨v, exp⟩
    · exact ⟨rfl, rfl⟩
    · dsimp only
      split <;> exact ⟨rfl, rfl⟩

theorem cm_rexists (k : String) : CounterMono (rexists k) := by
  apply cm_of_snd_eq
  intro st
  unfold rexists
  split
  · exact ⟨rfl, rfl⟩
  · rcases st.strs k with _ | ⟨v, exp⟩ <;> exact ⟨rfl, rfl⟩

theorem cm_rzcard (k : String) : CounterMono (rzcard k) := by
  apply cm_of_snd_eq
  intro st
  unfold rzcard
  split <;> exact ⟨rfl, rfl⟩

theorem cm_nowIso : CounterMono nowIso := fun _ => le_refl _

theorem cm_callGeoApi (ip : String) : CounterMono (callGeoApi ip) := by
  apply cm_of_snd_eq
  intro st
  unfold callGeoApi
  rcases st.geoApi ip with e | j <;> exact ⟨rfl, rfl⟩

theorem cm_callVpnApi (ip : String) : CounterMono (callVpnApi ip) := by
  apply cm_of_snd_eq
  intro st
  unfold callVpnApi
  rcases st.vpnApi ip with e | j <;> exact ⟨rfl, rfl⟩

theorem cm_rsetex (k : String) (ttl : Nat) (v : RVal)
    (hk : k ≠ "shield:block_count") : CounterMono (rsetex k ttl v) := by
  apply cm_of_snd_eq
  intro st
  unfold rsetex
  split
  · exact ⟨rfl, rfl⟩
  · exact ⟨by simp [fupd_other _ _ _ _ (Ne.symm hk)], rfl⟩

theorem cm_rexpire (k : String) (ttl : Nat)
    (hk : k ≠ "shield:block_count") : CounterMono (rexpire k ttl) := by
  apply cm_of_snd_eq
  intro st
  unfold rexpire
  split
  · exact ⟨rfl, rfl⟩
  · rcases st.strs k with _ | ⟨v, exp⟩
    · exact ⟨rfl, rfl⟩
    · dsimp only
      split
      · exact ⟨by simp [fupd_other _ _ _ _ (Ne.symm hk)], rfl⟩
      · exact ⟨rfl, rfl⟩

theorem cm_rlpush (k : String) (v : RVal) : CounterMono (rlpush k v) := by
  apply cm_of_snd_eq
  intro st
  unfold rlpush
  split <;> exact ⟨rfl, rfl⟩

theorem cm_rltrim (k : String) (stop : Nat) : CounterMono (rltrim k stop) := by
  apply cm_of_snd_eq
  intro st
  unfold rltrim
  split <;> exact ⟨rfl, rfl⟩

theorem cm_rincrby_ne (k : String) (a : Int)
    (hk : k ≠ "shield:block_count") : CounterMono (rincrby k a) := by
  apply cm_of_snd_eq
  intro st
  unfold rincrby
  split
  · exact ⟨rfl, rfl⟩
  · rcases st.strs k with _ | ⟨v, exp⟩
    · exact ⟨by simp [fupd_other _ _ _ _ (Ne.symm hk)], rfl⟩
    · dsimp only
      split
      · rcases rvalInt? v with _ | n
        · exact ⟨rfl, rfl⟩
        · exact ⟨by simp [fupd_other _ _ _ _ (Ne.symm hk)], rfl⟩
      · exact ⟨by simp [fupd_other _ _ _ _ (Ne.symm hk)], rfl⟩

theorem cm_rincrby_counter (a : Int) (ha : 0 ≤ a) :
    CounterMono (rincrby "shield:block_count" a) := by
  intro st
  unfold rincrby
  split
  · exact le_refl _
  · rcases hv : st.strs "shield:block_count" with _ | ⟨v, exp⟩
    · unfold blockCount
      simp [hv, alive, rvalInt?]
      omega
    · dsimp only
      by_cases hal : alive st.now exp = true
      · rw [if_pos hal]
        rcases hpv : rvalInt? v with _ | n
        · simp [blockCount]
        · unfold blockCount
          rw [hv]
          simp only [hal, hpv, if_true, fupd_same, Option.getD_some]
          simp [rvalInt?]
          omega
      · rw [if_neg hal]
        unfold blockCount
        simp only [Bool.not_eq_true] at hal
        simp only [hv, hal]
        simp [alive, rvalInt?]
        omega

theorem geo_cache_key_ne_counter (ip : String) :
    ("geo:ip:" ++ ip) ≠ "shield:block_count" :=
  append_ne_of_prefix_free _ _ _ (by decide)

theorem vpn_cache_key_ne_counter (ip : String) :
    ("shield:vpn:" ++ ip) ≠ "shield:block_count" :=
  append_ne_of_prefix_free _ _ _ (by decide)

theorem cm_block_ip (ip reason : String) (dur : Nat) :
    CounterMono (RiskEngine.block_ip ip reason dur) := by
  unfold RiskEngine.block_ip
  apply cm_bind (cm_rexists _)
  intro already
  apply cm_bind (cm_rsetex _ _ _ (block_key_ne_counter ip))
  intro _
  apply cm_ite
  · exact cm_bind (cm_rincrby_counter 1 (by norm_num)) (fun _ => cm_pure _)
  · exact cm_pure _

theorem cm_increment_risk (ip : String) (a : Int) (r : String) :
    CounterMono (RiskEngine.increment_risk ip a r) := by
  unfold RiskEngine.increment_risk
  apply cm_bind (cm_rincrby_ne _ _ (risk_key_ne_counter ip))
  intro current
  apply cm_bind (cm_rexpire _ _ (risk_key_ne_counter ip))
  intro _
  apply cm_bind cm_nowIso
  intro ts
  apply cm_bind (cm_rlpush _ _)
  intro _
  apply cm_bind (cm_rltrim _ _)
  intro _
  apply cm_ite
  · exact cm_bind (cm_block_ip _ _ _) (fun _ => cm_pure _)
  · exact cm_bind (cm_pure _) (fun _ => cm_pure _)

theorem cm_get_country_code (ip : String) :
    CounterMono (RiskEngine._get_country_code ip) := by
  unfold RiskEngine._get_country_code
  apply cm_bind (cm_rget _)
  intro cached
  cases cached with
  | some raw =>
      apply cm_bind (cm_liftE _)
      intro j
      exact cm_bind (cm_liftE _) (fun _ => cm_pure _)
  | none =>
      apply cm_bind (cm_mtry ?_ (fun e => cm_pure _))
      · intro attempt
        cases attempt with
        | some cc => exact cm_pure _
        | none => exact cm_pure _
      · apply cm_bind (cm_callGeoApi _)
        intro data
        apply cm_bind (cm_liftE _)
        intro status
        apply cm_ite
        · apply cm_bind (cm_liftE _)
          intro cc
          exact cm_bind (cm_rsetex _ _ _ (geo_cache_key_ne_counter ip)) (fun _ => cm_pure _)
        · exact cm_pure _

theorem cm_check_vpn_cached (ip : String) :
    CounterMono (RiskEngine._check_vpn_cached ip) := by
  unfold RiskEngine._check_vpn_cached
  apply cm_bind (cm_rget _)
  intro cached
  cases cached with
  | some raw =>
      apply cm_bind (cm_liftE _)
      intro j
      apply cm_bind (cm_liftE _)
      intro v
      exact cm_bind (cm_liftE _) (fun _ => cm_pure _)
  | none =>
      apply cm_bind (cm_mtry ?_ (fun e => cm_pure _))
      · intro attempt
        cases attempt with
        | some res => exact cm_pure _
        | none => exact cm_pure _
      · apply cm_bind (cm_callVpnApi _)
        intro data
        apply cm_bind (cm_liftE _)
        intro status
        apply cm_ite
        · apply cm_bind (cm_liftE _)
          intro p
          apply cm_bind (cm_liftE _)
          intro h
          exact cm_bind (cm_rsetex _ _ _ (vpn_cache_key_ne_counter ip)) (fun _ => cm_pure _)
        · exact cm_pure _

theorem cm_layer2_geo (ip : String) : CounterMono (RiskEngine.layer2_geo ip) := by
  unfold RiskEngine.layer2_geo
  apply cm_mtry ?_ (fun e => cm_pure _)
  apply cm_bind (cm_rget _)
  intro graw
  cases graw with
  | none => exact cm_pure _
  | some gv =>
      apply cm_bind (cm_liftE _)
      intro gs
      apply cm_bind (cm_liftE _)
      intro en
      apply cm_ite
      · apply cm_bind (cm_rget _)
        intro braw
        cases braw with
        | none => exact cm_pure _
        | some bv =>
            apply cm_bind (cm_liftE _)
            intro bc
            apply cm_ite
            · apply cm_bind (cm_get_country_code _)
              intro cc
              apply cm_bind (cm_liftE _)
              intro hit
              apply cm_ite <;> exact cm_pure _
            · exact cm_pure _
      · exact cm_pure _

theorem cm_layer3_security (ip : String) (request : Option RiskEngine.Req) :
    CounterMono (RiskEngine.layer3_security ip request) := by
  unfold RiskEngine.layer3_security
  apply cm_mtry ?_ (fun e => cm_pure _)
  apply cm_bind (cm_rget _)
  intro sraw
  cases sraw with
  | none => exact cm_pure _
  | some sv =>
      apply cm_bind (cm_liftE _)
      intro ss
      apply cm_bind (cm_liftE _)
      intro att
      apply cm_bind (cm_ite _ ?_ ?_)
      · intro attDeny
        cases attDeny with
        | some d => exact cm_pure _
        | none =>
            apply cm_bind (cm_liftE _)
            intro bv
            apply cm_bind (cm_ite _ ?_ (cm_pure _))
            · intro vpnDeny
              cases vpnDeny with
              | some d => exact cm_pure _
              | none =>
                  apply cm_bind (cm_liftE _)
                  intro max_bio
                  apply cm_bind (cm_rzcard _)
                  intro bio_count
                  apply cm_ite
                  · exact cm_bind (cm_increment_risk _ _ _) (fun _ => cm_pure _)
                  · exact cm_pure _
            · apply cm_bind (cm_check_vpn_cached _)
              intro res
              apply cm_ite <;> exact cm_pure _
      · cases request with
        | some req =>
            apply cm_ite
            · apply cm_bind (cm_increment_risk _ _ _)
              intro _
              apply cm_bind (cm_rget _)
              intro reason
              cases reason with
              | some r => apply cm_ite <;> exact cm_pure _
              | none => exact cm_pure _
            · exact cm_pure _
        | none => exact cm_pure _
      · exact cm_pure _

theorem cm_layer4_loop (ip : String) : ∀ l, CounterMono (RiskEngine.layer4_loop ip l)
  | [] => cm_pure _
  | k :: rest => by
      unfold RiskEngine.layer4_loop
      apply cm_bind (cm_rzcard _)
      intro count
      apply cm_ite
      · exact cm_bind (cm_increment_risk _ _ _) (fun _ => cm_pure _)
      · exact cm_layer4_loop ip rest

theorem cm_is_ip_blocked_rest (ip : String) (request : Option RiskEngine.Req) :
    CounterMono (RiskEngine.is_ip_blocked_rest ip request) := by
  unfold RiskEngine.is_ip_blocked_rest
  apply cm_bind (cm_layer2_geo _)
  intro d2
  cases d2 with
  | some d => exact cm_pure _
  | none =>
      apply cm_bind (cm_layer3_security _ _)
      intro d3
      cases d3 with
      | some d => exact cm_pure _
      | none =>
          apply cm_bind (cm_layer4_loop _ _)
          intro d4
          cases d4 with
          | some d => exact cm_pure _
          | none => exact cm_pure _

theorem cm_is_ip_blocked (ip : String) (request : Option RiskEngine.Req) :
    CounterMono (RiskEngine.is_ip_blocked ip request) := by
  unfold RiskEngine.is_ip_blocked
  apply cm_bind (cm_rget _)
  intro reason
  cases reason with
  | some r =>
      apply cm_ite
      · exact cm_pure _
      · exact cm_is_ip_blocked_rest _ _
  | none => exact cm_is_ip_blocked_rest _ _

theorem cm_get_block_count : CounterMono RiskEngine.get_block_count := by
  unfold RiskEngine.get_block_count
  apply cm_bind (cm_rget _)
  intro count
  cases count with
  | some v =>
      apply cm_ite
      · exact cm_liftE _
      · exact cm_pure _
  | none => exact cm_pure _

theorem cm_shield_middleware (cn : RiskEngine.Req → Resp) (lat : Nat)
    (request : RiskEngine.Req) : CounterMono (shield_middleware cn lat request) := by
  unfold shield_middleware
  apply cm_ite
  · exact cm_pure _
  · apply cm_bind (cm_is_ip_blocked _ _)
    intro bl
    apply cm_ite
    · exact cm_pure _
    · apply cm_ite
      · exact cm_bind (cm_increment_risk _ _ _) (fun _ => cm_pure _)
      · apply cm_ite
        · exact cm_bind (cm_increment_risk _ _ _) (fun _ => cm_pure _)
        · exact cm_pure _

theorem block_ip_fresh_counter (ip reason : String) (dur : Nat) (st : St)
    (hfail : st.fails = fun _ _ => false) (hc : counterOk st)
    (hb : st.strs ("shield:block:" ++ ip) = none) :
    ∃ st', RiskEngine.block_ip ip reason dur st = (.ok (), st') ∧
      blockCount st' = blockCount st + 1 := by
  have hbc : "shield:block_count" ≠ "shield:block:" ++ ip :=
    fun h => (block_key_ne_counter ip) h.symm
  rcases hc with hc | ⟨n, cexp, hc⟩
  · refine ⟨{ st with strs := (fupd (fupd st.strs ("shield:block:" ++ ip)
        (some (.vplain reason, some (st.now + dur)))) "shield:block_count"
        (some (.vint 1, none))) }, ?_, ?_⟩
    · simp [RiskEngine.block_ip, rexists, rsetex, rincrby, hb, hc, hfail,
        fupd_other _ _ _ _ hbc]
    · unfold blockCount
      simp [hc, alive, rvalInt?]
  · by_cases hal : alive st.now cexp
    · refine ⟨{ st with strs := (fupd (fupd st.strs ("shield:block:" ++ ip)
          (some (.vplain reason, some (st.now + dur)))) "shield:block_count"
          (some (.vint (n + 1), cexp))) }, ?_, ?_⟩
      · simp [RiskEngine.block_ip, rexists, rsetex, rincrby, rvalInt?, hb, hc, hal, hfail,
          fupd_other _ _ _ _ hbc]
      · unfold blockCount
        simp only [hc, hal, fupd_same, St.now, St.strs, if_true]
        simp [rvalInt?]
    · simp only [Bool.not_eq_true] at hal
      refine ⟨{ st with strs := (fupd (fupd st.strs ("shield:block:" ++ ip)
          (some (.vplain reason, some (st.now + dur)))) "shield:block_count"
          (some (.vint 1, none))) }, ?_, ?_⟩
      · simp [RiskEngine.block_ip, rexists, rsetex, rincrby, rvalInt?, hb, hc, hal, hfail,
          fupd_other _ _ _ _ hbc]
      · unfold blockCount
        simp only [hc, hal, fupd_same, St.now, St.strs]
        simp [alive, rvalInt?]

theorem block_ip_repeat_counter (ip reason : String) (dur : Nat) (st : St)
    (hfail : st.fails = fun _ _ => false) (hc : counterOk st)
    (v : RVal) (exp : Option Nat)
    (hb : st.strs ("shield:block:" ++ ip) = some (v, exp))
    (hal : alive st.now exp = true) :
    ∃ st', RiskEngine.block_ip ip reason dur st = (.ok (), st') ∧
      blockCount st' = blockCount st := by
  have hbc : "shield:block_count" ≠ "shield:block:" ++ ip :=
    fun h => (block_key_ne_counter ip) h.symm
  refine ⟨{ st with strs := (fupd st.strs ("shield:block:" ++ ip)
      (some (.vplain reason, some (st.now + dur)))) }, ?_, ?_⟩
  · simp [RiskEngine.block_ip, rexists, rsetex, hb, hal, hfail]
  · exact blockCount_eq_of (by simp [fupd_other _ _ _ _ hbc]) rfl

/-- C4: the global block counter is incremented by exactly 1 when block_ip is
called for an identity with no existing block record, is left unchanged when
the identity is already blocked, and is never decremented by any modelled
operation of the system: block_ip, increment_risk, is_ip_blocked, the cached
reputation lookups, get_block_count, and the gateway middleware. -/
theorem block_counter_transitions (ip reason : String) (dur : Nat) (st1 st2 : St)
    (v : RVal) (exp : Option Nat) :
    ((st1.fails = (fun _ _ => false) ∧ counterOk st1 ∧
      st1.strs ("shield:block:" ++ ip) = none) →
      ∃ st', RiskEngine.block_ip ip reason dur st1 = (.ok (), st') ∧
        blockCount st' = blockCount st1 + 1) ∧
    ((st2.fails = (fun _ _ => false) ∧ counterOk st2 ∧
      st2.strs ("shield:block:" ++ ip) = some (v, exp) ∧ alive st2.now exp = true) →
      ∃ st', RiskEngine.block_ip ip reason dur st2 = (.ok (), st') ∧
        blockCount st' = blockCount st2) ∧
    (∀ st : St, blockCount st ≤ blockCount ((RiskEngine.block_ip ip reason dur) st).2) ∧
    (∀ (st : St) (a : Int) (r : String),
      blockCount st ≤ blockCount ((RiskEngine.increment_risk ip a r) st).2) ∧
    (∀ (st : St) (req : Option RiskEngine.Req),
      blockCount st ≤ blockCount ((RiskEngine.is_ip_blocked ip req) st).2) ∧
    (∀ st : St, blockCount st ≤ blockCount ((RiskEngine._get_country_code ip) st).2) ∧
    (∀ st : St, blockCount st ≤ blockCount ((RiskEngine._check_vpn_cached ip) st).2) ∧
    (∀ st : St, blockCount st ≤ blockCount (RiskEngine.get_block_count st).2) ∧
    (∀ (st : St) (cn : RiskEngine.Req → Resp) (lat : Nat) (req : RiskEngine.Req),
      blockCount st ≤ blockCount ((shield_middleware cn lat req) st).2) := by
  refine ⟨fun ⟨hf, hc, hb⟩ => block_ip_fresh_counter ip reason dur st1 hf hc hb,
    fun ⟨hf, hc, hb, hal⟩ => block_ip_repeat_counter ip reason dur st2 hf hc v exp hb hal,
    fun st => cm_block_ip ip reason dur st,
    fun st a r => cm_increment_risk ip a r st,
    fun st req => cm_is_ip_blocked ip req st,
    fun st => cm_get_country_code ip st,
    fun st => cm_check_vpn_cached ip st,
    fun st => cm_get_block_count st,
    fun st cn lat req => cm_shield_middleware cn lat req st⟩

/-- Witness: a first block of 8.8.8.8 over the empty store bumps the counter
from 0 to 1; repeating block_ip over a store where 8.8.8.8 is already blocked
leaves the counter unchanged. -/
theorem block_counter_transitions_witness :
    (∃ st', RiskEngine.block_ip "8.8.8.8" "manual" 3600 emptySt = (.ok (), st') ∧
      blockCount st' = blockCount emptySt + 1) ∧
    (∃ st', RiskEngine.block_ip "8.8.8.8" "manual" 3600 stBlocked = (.ok (), st') ∧
      blockCount st' = blockCount stBlocked) := by
  obtain ⟨w1, w2, -⟩ :=
    block_counter_transitions "8.8.8.8" "manual" 3600 emptySt stBlocked
      (.vplain "manual") none
  exact ⟨w1 ⟨rfl, Or.inl rfl, rfl⟩, w2 ⟨rfl, Or.inl rfl, rfl, rfl⟩⟩

end DTGShield
